import Mathlib

/-!
Verification of the orca-interiores budget core against its specification.

Shallow embedding of the Python sources `precos_leo_madeiras.py`,
`orcamento.py` and `parser_3d.py`.  Python floats are modelled as
rationals (ℚ); Python `round(x, n)` is modelled by `round_dec`
(round-half-up at `n` decimal places, Mathlib's `round`).  Python
strings are Lean `String`s; `str.lower()` is `minusculas`
(ASCII lowering — all strings the code compares are ASCII).
External collaborators (trimesh loading, the filesystem, wall-clock
time) appear as explicit parameters; metadata fields that merely echo
static strings or timestamps (`fonte_precos`, `data_orcamento`,
`descricao`, `bounds` echoes) are carried only where a claim needs them.
-/

/-- Python `round(q, n)` on rationals: round to `n` decimal places. -/
def round_dec (q : ℚ) (n : ℕ) : ℚ :=
  ((round (q * 10 ^ n) : ℤ) : ℚ) / 10 ^ n

/-- `temPrefixo pat l` iff the char list `pat` is an initial segment of `l`. -/
def temPrefixo : List Char → List Char → Bool
  | [], _ => true
  | _ :: _, [] => false
  | p :: ps, c :: cs => p == c && temPrefixo ps cs

/-- `temSub pat l` iff `pat` occurs contiguously inside `l`
(Python `pat in l` on strings). -/
def temSub : List Char → List Char → Bool
  | pat, [] => temPrefixo pat []
  | pat, c :: cs => temPrefixo pat (c :: cs) || temSub pat cs

/-- Python `s.lower()` (ASCII lowering, as `Char.toLower`), viewed as
the character list of the result. -/
def minusculas (s : String) : List Char :=
  s.data.map Char.toLower

/-- Python `pat in s` for a string pattern and a lowered string. -/
def contem (pat : String) (l : List Char) : Bool :=
  temSub pat.data l

/-! ## `precos_leo_madeiras.py` -/

/-- One entry of `PRECOS_MATERIAIS`. -/
structure InfoMaterial where
  preco_m2 : ℚ
  descricao : String
  fornecedor : String
  desperdicio_percentual : ℚ
deriving Repr, DecidableEq

def mdf_15mm : InfoMaterial :=
  { preco_m2 := 69.15
    descricao := "MDF Branco Artico Texturizado Ultra Premium 15mm"
    fornecedor := "Duratex"
    desperdicio_percentual := 0.15 }

def PRECOS_MATERIAIS : List (String × InfoMaterial) :=
  [ ("mdf_15mm", mdf_15mm),
    ("mdf_18mm",
      { preco_m2 := 77.85
        descricao := "MDF Branco Artico Texturizado Ultra Premium 18mm"
        fornecedor := "Duratex"
        desperdicio_percentual := 0.15 }),
    ("compensado_15mm",
      { preco_m2 := 64.00
        descricao := "Compensado Parica 15mm 100 Eucalipto"
        fornecedor := "Nacional"
        desperdicio_percentual := 0.12 }),
    ("compensado_10mm",
      { preco_m2 := 52.50
        descricao := "Compensado Parica 10mm 100 Eucalipto"
        fornecedor := "Nacional"
        desperdicio_percentual := 0.12 }),
    ("mdp_15mm",
      { preco_m2 := 58.00
        descricao := "MDP Melaminico 15mm"
        fornecedor := "Nacional"
        desperdicio_percentual := 0.18 }),
    ("melamina_15mm",
      { preco_m2 := 89.50
        descricao := "Melamina Texturizada 15mm"
        fornecedor := "Nacional"
        desperdicio_percentual := 0.10 }) ]

/-- `obter_preco_material`: dictionary get with fallback to `mdf_15mm`. -/
def obter_preco_material (tipo_material : String) : InfoMaterial :=
  match PRECOS_MATERIAIS.lookup tipo_material with
  | some info => info
  | none => mdf_15mm

/-- One tier of `PRECOS_ACESSORIOS`. -/
structure PrecosAcessorios where
  dobradica : ℚ
  puxador : ℚ
  corredicica : ℚ
  suporte_prateleira : ℚ
  fechadura : ℚ
  parafuso_kit : ℚ
deriving Repr, DecidableEq

def acessorios_comum : PrecosAcessorios :=
  { dobradica := 12.50, puxador := 15.80, corredicica := 45.00
    suporte_prateleira := 8.50, fechadura := 25.00, parafuso_kit := 3.50 }

def acessorios_premium : PrecosAcessorios :=
  { dobradica := 28.50, puxador := 45.00, corredicica := 89.00
    suporte_prateleira := 18.50, fechadura := 65.00, parafuso_kit := 8.50 }

def PRECOS_ACESSORIOS : List (String × PrecosAcessorios) :=
  [ ("comum", acessorios_comum), ("premium", acessorios_premium) ]

/-- `obter_precos_acessorios`: dictionary get with fallback to `comum`. -/
def obter_precos_acessorios (qualidade : String) : PrecosAcessorios :=
  match PRECOS_ACESSORIOS.lookup qualidade with
  | some p => p
  | none => acessorios_comum

def CUSTOS_MAO_OBRA_base_m2 : ℚ := 120.00

def multiplicadores_complexidade : List (String × ℚ) :=
  [ ("simples", 1.0), ("media", 1.3), ("complexa", 1.7), ("premium", 2.2) ]

/-- `obter_custo_mao_obra`: base rate times complexity multiplier,
unknown tier falls back to 1.3. -/
def obter_custo_mao_obra (complexidade : String) : ℚ :=
  CUSTOS_MAO_OBRA_base_m2 *
    ((multiplicadores_complexidade.lookup complexidade).getD 1.3)

def CUSTOS_CORTE_corte_reto_metro : ℚ := 2.50
def CUSTOS_CORTE_furo_dobradica : ℚ := 1.50
def CUSTOS_CORTE_rebaixo_metro : ℚ := 3.50
def CUSTOS_CORTE_taxa_minima : ℚ := 15.00

/-! ## The Component data model (dicts produced by `parser_3d.py` and
consumed by `orcamento.py`) -/

/-- A component dict.  `id` is 0 until assigned (`analisar_arquivo` /
the Simulator set it); `bounds` echoes the input bounding box. -/
@[ext]
structure Componente where
  id : ℕ := 0
  nome : String := ""
  tipo : String
  largura_m : ℚ := 0
  altura_m : ℚ := 0
  profundidade_m : ℚ := 0
  area_m2 : ℚ := 0
  volume_m3 : ℚ := 0
  confianca : ℚ := 0
  bounds : (ℚ × ℚ × ℚ) × (ℚ × ℚ × ℚ) := ((0, 0, 0), (0, 0, 0))
deriving Repr, DecidableEq

/-- `calcular_custo_corte_estimado` from `precos_leo_madeiras.py`:
per piece, straight-cut cost on the perimeter clamped below by the
minimum charge, plus hinge bores for doors/drawers and a rebate for
shelves; the accumulated total is rounded once at the end. -/
def custo_corte_componente (comp : Componente) : ℚ :=
  let perimetro := 2 * (comp.largura_m + comp.altura_m)
  let custo_corte := perimetro * CUSTOS_CORTE_corte_reto_metro
  let custo_corte := max custo_corte CUSTOS_CORTE_taxa_minima
  let custo_corte :=
    if comp.tipo = "Porta" ∨ comp.tipo = "Gaveta" then
      custo_corte + 4 * CUSTOS_CORTE_furo_dobradica
    else custo_corte
  if comp.tipo = "Prateleira" then
    custo_corte + comp.largura_m * CUSTOS_CORTE_rebaixo_metro
  else custo_corte

def calcular_custo_corte_estimado (componentes : List Componente) : ℚ :=
  round_dec ((componentes.map custo_corte_componente).sum) 2

/-! ## `orcamento.py` -/

/-- The `configuracoes` dict of `gerar_orcamento_completo`. -/
structure Configuracoes where
  tipo_material : String
  qualidade_acessorios : String
  complexidade : String
  margem_lucro : ℚ
deriving Repr, DecidableEq

/-- Defaults used when `configuracoes` is falsy. -/
def configuracoes_padrao : Configuracoes :=
  { tipo_material := "mdf_15mm", qualidade_acessorios := "comum"
    complexidade := "media", margem_lucro := 0.30 }

/-- Result dict of `calcular_materiais`. -/
structure ResultadoMateriais where
  tipo_material : String
  descricao : String
  fornecedor : String
  area_liquida_m2 : ℚ
  desperdicio_percentual : ℚ
  area_com_desperdicio_m2 : ℚ
  preco_m2 : ℚ
  custo_total : ℚ
deriving Repr, DecidableEq

def area_total_componentes (componentes : List Componente) : ℚ :=
  (componentes.map Componente.area_m2).sum

def calcular_materiais (componentes : List Componente)
    (tipo_material : String) : ResultadoMateriais :=
  let info_material := obter_preco_material tipo_material
  let area_total := area_total_componentes componentes
  let area_com_desperdicio := area_total * (1 + info_material.desperdicio_percentual)
  let custo_total := area_com_desperdicio * info_material.preco_m2
  { tipo_material := tipo_material
    descricao := info_material.descricao
    fornecedor := info_material.fornecedor
    area_liquida_m2 := round_dec area_total 2
    desperdicio_percentual := info_material.desperdicio_percentual
    area_com_desperdicio_m2 := round_dec area_com_desperdicio 2
    preco_m2 := info_material.preco_m2
    custo_total := round_dec custo_total 2 }

/-- Accessory quantities accumulated by the `calcular_acessorios` loop
(the `itens` dict; a kind absent from the dict has quantity 0). -/
structure ItensAcessorios where
  dobradica_qtd : ℕ := 0
  puxador_qtd : ℕ := 0
  corredicica_qtd : ℕ := 0
  suporte_prateleira_qtd : ℕ := 0
deriving Repr, DecidableEq

/-- One iteration of the `calcular_acessorios` loop. -/
def conta_acessorios_comp (itens : ItensAcessorios) (comp : Componente) :
    ItensAcessorios :=
  let tipo := minusculas comp.tipo
  let itens :=
    if contem "porta" tipo || contem "gaveta" tipo then
      { itens with dobradica_qtd := itens.dobradica_qtd + 2
                   puxador_qtd := itens.puxador_qtd + 1 }
    else itens
  let itens :=
    if contem "gaveta" tipo then
      { itens with corredicica_qtd := itens.corredicica_qtd + 1 }
    else itens
  if contem "prateleira" tipo then
    { itens with suporte_prateleira_qtd := itens.suporte_prateleira_qtd + 4 }
  else itens

/-- Total of `quantidade * preco_unitario` over the `itens` dict. -/
def custo_itens (itens : ItensAcessorios) (precos : PrecosAcessorios) : ℚ :=
  (itens.dobradica_qtd : ℚ) * precos.dobradica
    + (itens.puxador_qtd : ℚ) * precos.puxador
    + (itens.corredicica_qtd : ℚ) * precos.corredicica
    + (itens.suporte_prateleira_qtd : ℚ) * precos.suporte_prateleira

/-- Result dict of `calcular_acessorios`. -/
structure ResultadoAcessorios where
  qualidade : String
  itens : ItensAcessorios
  custo_total : ℚ
deriving Repr, DecidableEq

def calcular_acessorios (componentes : List Componente)
    (qualidade : String) : ResultadoAcessorios :=
  let precos := obter_precos_acessorios qualidade
  let itens := componentes.foldl conta_acessorios_comp {}
  { qualidade := qualidade
    itens := itens
    custo_total := round_dec (custo_itens itens precos) 2 }

/-- Result dict of `calcular_mao_obra`. -/
structure ResultadoMaoObra where
  complexidade : String
  area_m2 : ℚ
  custo_m2 : ℚ
  custo_base : ℚ
  custo_total : ℚ
deriving Repr, DecidableEq

def calcular_mao_obra (componentes : List Componente)
    (complexidade : String) : ResultadoMaoObra :=
  let area_total := area_total_componentes componentes
  let custo_m2 := obter_custo_mao_obra complexidade
  let custo_base := area_total * custo_m2
  { complexidade := complexidade
    area_m2 := round_dec area_total 2
    custo_m2 := custo_m2
    custo_base := round_dec custo_base 2
    custo_total := round_dec custo_base 2 }

/-- Result dict of `calcular_corte`. -/
structure ResultadoCorte where
  componentes_processados : ℕ
  custo_total : ℚ
deriving Repr, DecidableEq

def calcular_corte (componentes : List Componente) : ResultadoCorte :=
  { componentes_processados := componentes.length
    custo_total := calcular_custo_corte_estimado componentes }

/-- One entry of the `custos_individuais` list.  `componente_id` models
`comp.get("id", ...)` via the `id` field; the `acessorios_usados`
strings and the `detalhamento` sub-dict only echo inputs and are
omitted. -/
structure CustoIndividual where
  componente_id : ℕ
  tipo : String
  area_m2 : ℚ
  custo_material : ℚ
  custo_acessorios : ℚ
  custo_mao_obra : ℚ
  custo_corte : ℚ
  subtotal : ℚ
  valor_margem : ℚ
  custo_total : ℚ
  custo_por_m2 : ℚ
deriving Repr, DecidableEq

/-- Per-component accessory cost accumulated inside
`calcular_custos_individuais`. -/
def custo_acessorios_individual (precos : PrecosAcessorios)
    (comp : Componente) : ℚ :=
  let tipo := minusculas comp.tipo
  (if contem "porta" tipo || contem "gaveta" tipo then
      2 * precos.dobradica + precos.puxador
    else 0)
  + (if contem "gaveta" tipo then precos.corredicica else 0)
  + (if contem "prateleira" tipo then 4 * precos.suporte_prateleira else 0)

/-- Body of the `calcular_custos_individuais` loop for one component. -/
def custo_individual_comp (info_material : InfoMaterial)
    (precos_acessorios : PrecosAcessorios) (custo_mao_obra_m2 : ℚ)
    (margem_lucro : ℚ) (comp : Componente) : CustoIndividual :=
  let area_com_desperdicio :=
    comp.area_m2 * (1 + info_material.desperdicio_percentual)
  let custo_material := area_com_desperdicio * info_material.preco_m2
  let custo_acessorios := custo_acessorios_individual precos_acessorios comp
  let custo_mao_obra := comp.area_m2 * custo_mao_obra_m2
  let custo_corte := calcular_custo_corte_estimado [comp]
  let subtotal := custo_material + custo_acessorios + custo_mao_obra + custo_corte
  let valor_margem := subtotal * margem_lucro
  let custo_total := subtotal + valor_margem
  { componente_id := comp.id
    tipo := comp.tipo
    area_m2 := comp.area_m2
    custo_material := round_dec custo_material 2
    custo_acessorios := round_dec custo_acessorios 2
    custo_mao_obra := round_dec custo_mao_obra 2
    custo_corte := round_dec custo_corte 2
    subtotal := round_dec subtotal 2
    valor_margem := round_dec valor_margem 2
    custo_total := round_dec custo_total 2
    custo_por_m2 :=
      round_dec (if comp.area_m2 > 0 then custo_total / comp.area_m2 else 0) 2 }

def calcular_custos_individuais (componentes : List Componente)
    (configuracoes : Configuracoes) : List CustoIndividual :=
  let info_material := obter_preco_material configuracoes.tipo_material
  let precos_acessorios := obter_precos_acessorios configuracoes.qualidade_acessorios
  let custo_mao_obra_m2 := obter_custo_mao_obra configuracoes.complexidade
  componentes.map
    (custo_individual_comp info_material precos_acessorios custo_mao_obra_m2
      configuracoes.margem_lucro)

/-- The `resumo` dict of `gerar_orcamento_completo`. -/
@[ext]
structure Resumo where
  subtotal_materiais : ℚ
  subtotal_acessorios : ℚ
  subtotal_mao_obra : ℚ
  subtotal_corte : ℚ
  subtotal_antes_margem : ℚ
  valor_margem : ℚ
  valor_final : ℚ
  area_total_m2 : ℚ
  valor_por_m2 : ℚ
deriving Repr, DecidableEq

/-- The budget dict returned by `gerar_orcamento_completo`
(`fonte_precos` and `data_orcamento` metadata omitted). -/
structure Orcamento where
  configuracoes : Configuracoes
  materiais : ResultadoMateriais
  acessorios : ResultadoAcessorios
  mao_obra : ResultadoMaoObra
  corte : ResultadoCorte
  custos_individuais : List CustoIndividual
  resumo : Resumo
deriving Repr, DecidableEq

/-- `gerar_orcamento_completo`: a falsy `configuracoes` argument is
replaced by the defaults; no validation is performed. -/
def gerar_orcamento_completo (componentes : List Componente)
    (cfg? : Option Configuracoes) : Orcamento :=
  let configuracoes := cfg?.getD configuracoes_padrao
  let materiais := calcular_materiais componentes configuracoes.tipo_material
  let acessorios := calcular_acessorios componentes configuracoes.qualidade_acessorios
  let mao_obra := calcular_mao_obra componentes configuracoes.complexidade
  let corte := calcular_corte componentes
  let subtotal_materiais := materiais.custo_total
  let subtotal_acessorios := acessorios.custo_total
  let subtotal_mao_obra := mao_obra.custo_total
  let subtotal_corte := corte.custo_total
  let subtotal_antes_margem :=
    subtotal_materiais + subtotal_acessorios + subtotal_mao_obra + subtotal_corte
  let valor_margem := subtotal_antes_margem * configuracoes.margem_lucro
  let valor_final := subtotal_antes_margem + valor_margem
  let area_total := area_total_componentes componentes
  let valor_por_m2 := if area_total > 0 then valor_final / area_total else 0
  { configuracoes := configuracoes
    materiais := materiais
    acessorios := acessorios
    mao_obra := mao_obra
    corte := corte
    custos_individuais := calcular_custos_individuais componentes configuracoes
    resumo :=
      { subtotal_materiais := round_dec subtotal_materiais 2
        subtotal_acessorios := round_dec subtotal_acessorios 2
        subtotal_mao_obra := round_dec subtotal_mao_obra 2
        subtotal_corte := round_dec subtotal_corte 2
        subtotal_antes_margem := round_dec subtotal_antes_margem 2
        valor_margem := round_dec valor_margem 2
        valor_final := round_dec valor_final 2
        area_total_m2 := round_dec area_total 2
        valor_por_m2 := round_dec valor_por_m2 2 } }

/-! ## `parser_3d.py` -/

/-- The `tipos_componentes` keyword table, in dict order. -/
def tipos_componentes : List (String × List String) :=
  [ ("armario", ["armário", "cabinet", "wardrobe", "closet"]),
    ("gaveta", ["gaveta", "drawer", "cajón"]),
    ("porta", ["porta", "door", "puerta"]),
    ("prateleira", ["prateleira", "shelf", "estante"]),
    ("bancada", ["bancada", "countertop", "mesa"]),
    ("painel", ["painel", "panel", "lateral"]) ]

/-- `mapear_tipo`: internal type to display name, default `Componente`. -/
def mapear_tipo (tipo_interno : String) : String :=
  (([ ("armario", "Armário"), ("gaveta", "Gaveta"), ("porta", "Porta"),
      ("prateleira", "Prateleira"), ("bancada", "Bancada"),
      ("painel", "Painel") ] : List (String × String)).lookup
    tipo_interno).getD "Componente"

/-- `classificar_componente`: keyword match on the lowered name first,
then the fixed dimension-rule cascade. -/
def classificar_componente (largura altura profundidade : ℚ)
    (nome : String) : String × ℚ :=
  let nome_lower := minusculas nome
  match tipos_componentes.find?
      (fun p => p.2.any (fun palavra => contem palavra nome_lower)) with
  | some p => (mapear_tipo p.1, 0.9)
  | none =>
    let confianca_base : ℚ := 0.7
    if altura < 0.15 ∧ largura > 0.8 ∧ profundidade > 0.4 then
      ("Bancada", confianca_base + 0.1)
    else if altura < 0.05 ∧ largura > 0.3 then
      ("Prateleira", confianca_base)
    else if altura > 0.4 ∧ largura > 0.3 ∧ profundidade < 0.1 then
      ("Porta", confianca_base)
    else if altura < 0.25 ∧ largura > 0.3 ∧ profundidade > 0.3 then
      ("Gaveta", confianca_base)
    else if altura > 0.5 ∧ largura > 0.4 ∧ profundidade > 0.3 then
      if altura > 1.5 then ("Armário Alto", confianca_base + 0.1)
      else ("Armário Baixo", confianca_base)
    else if altura > 0.5 ∧ largura < 0.2 then
      ("Painel Lateral", confianca_base - 0.1)
    else
      ("Componente", confianca_base - 0.2)

/-- A bounding box: the two corner points `bounds[0]`, `bounds[1]`. -/
abbrev Bounds : Type := (ℚ × ℚ × ℚ) × (ℚ × ℚ × ℚ)

/-- `abs(bounds[1] - bounds[0])` componentwise:
(largura, altura, profundidade) brutas. -/
def dimensoes_brutas (b : Bounds) : ℚ × ℚ × ℚ :=
  (|b.2.1 - b.1.1|, |b.2.2.1 - b.1.2.1|, |b.2.2.2 - b.1.2.2|)

/-- Unit-detection step of `analisar_geometria`: if the largest raw
extent exceeds 100 the box is taken to be in millimeters and all three
extents are divided by 1000, else kept as meters. -/
def normalizar_dimensoes (dims : ℚ × ℚ × ℚ) : ℚ × ℚ × ℚ :=
  let max_dim := max dims.1 (max dims.2.1 dims.2.2)
  if max_dim > 100 then (dims.1 / 1000, dims.2.1 / 1000, dims.2.2 / 1000)
  else dims

/-- `analisar_geometria` on a geometry that has a bounding box
(the no-bounds and exception paths return `None` in the source and are
handled by the callers). -/
def analisar_geometria (b : Bounds) (nome : String) : Option Componente :=
  let dims := normalizar_dimensoes (dimensoes_brutas b)
  let largura := dims.1
  let altura := dims.2.1
  let profundidade := dims.2.2
  if largura > 5 ∨ altura > 4 ∨ profundidade > 2 then none
  else if min largura (min altura profundidade) < 0.01 then none
  else
    let area := largura * altura
    let volume := largura * altura * profundidade
    let tc := classificar_componente largura altura profundidade nome
    some { nome := nome
           tipo := tc.1
           largura_m := round_dec largura 3
           altura_m := round_dec altura 3
           profundidade_m := round_dec profundidade 3
           area_m2 := round_dec area 3
           volume_m3 := round_dec volume 4
           confianca := round_dec tc.2 3
           bounds := b }

/-- The synthetic door emitted by `simular_componentes`. -/
def porta_simulada (b : Bounds) (largura_total altura_total : ℚ) : Componente :=
  { id := 1
    nome := "porta_esquerda"
    tipo := "Porta"
    largura_m := round_dec (largura_total / 2 - 0.05) 3
    altura_m := round_dec (altura_total * 0.9) 3
    profundidade_m := 0.02
    area_m2 := round_dec ((largura_total / 2 - 0.05) * (altura_total * 0.9)) 3
    volume_m3 := round_dec ((largura_total / 2 - 0.05) * (altura_total * 0.9) * 0.02) 4
    confianca := 0.85
    bounds := b }

/-- The `i`-th (0-based) synthetic shelf emitted by `simular_componentes`. -/
def prateleira_simulada (b : Bounds) (largura_total profundidade_total : ℚ)
    (i : ℕ) : Componente :=
  { id := i + 2
    nome := "prateleira_" ++ toString (i + 1)
    tipo := "Prateleira"
    largura_m := round_dec (largura_total - 0.1) 3
    altura_m := 0.02
    profundidade_m := round_dec (profundidade_total - 0.1) 3
    area_m2 := round_dec ((largura_total - 0.1) * 0.02) 3
    volume_m3 := round_dec ((largura_total - 0.1) * 0.02 * (profundidade_total - 0.1)) 4
    confianca := 0.80
    bounds := b }

/-- The synthetic countertop emitted by `simular_componentes`. -/
def bancada_simulada (b : Bounds)
    (largura_total altura_total profundidade_total : ℚ) : Componente :=
  { id := 1
    nome := "tampo_bancada"
    tipo := "Bancada"
    largura_m := round_dec largura_total 3
    altura_m := round_dec altura_total 3
    profundidade_m := round_dec profundidade_total 3
    area_m2 := round_dec (largura_total * profundidade_total) 3
    volume_m3 := round_dec (largura_total * altura_total * profundidade_total) 4
    confianca := 0.90
    bounds := b }

/-- `simular_componentes`: synthesize typical furniture parts from the
overall bounding box.  Python `int(x)` on the nonnegative
`altura_total / 0.4` is the floor. -/
def simular_componentes (b : Bounds) : List Componente :=
  let dims := dimensoes_brutas b
  let largura_total := dims.1
  let altura_total := dims.2.1
  let profundidade_total := dims.2.2
  if altura_total > 1.5 then
    let num_prateleiras := max 2 (⌊altura_total / 0.4⌋).toNat
    porta_simulada b largura_total altura_total ::
      (List.range num_prateleiras).map
        (prateleira_simulada b largura_total profundidade_total)
  else if altura_total < 0.3 then
    [bancada_simulada b largura_total altura_total profundidade_total]
  else
    []

/-- Outcome of the external `trimesh.load` call, as far as
`extrair_geometrias` observes it: a scene (named geometries, each with
an optional bounding box), a single mesh (optional bounding box), or an
unrecognized object. -/
inductive MeshData where
  | scene (geometry : List (String × Option Bounds)) : MeshData
  | trimesh (bounds? : Option Bounds) : MeshData
  | outro : MeshData

/-- `extrair_geometrias`: per-geometry analysis for a scene; for a
single mesh, the main structure plus simulated sub-components. -/
def extrair_geometrias (mesh_data : MeshData) : List Componente :=
  match mesh_data with
  | MeshData.scene geometry =>
    geometry.filterMap
      (fun p => p.2.bind (fun b => analisar_geometria b p.1))
  | MeshData.trimesh none => []
  | MeshData.trimesh (some b) =>
    match analisar_geometria b "estrutura_principal" with
    | some info_principal => info_principal :: simular_componentes b
    | none => []
  | MeshData.outro => []

def formatos_suportados : List String := [".obj", ".dae", ".stl", ".ply"]

/-- `validar_arquivo`.  The extension is the lower-cased
`os.path.splitext(filename)[1]`, passed in directly (the path split is
an external `os` call). -/
def validar_arquivo (ext : String) (file_size : ℕ) : Bool × String :=
  if !(formatos_suportados.any (fun f => f.data == minusculas ext)) then
    (false, "Formato nao suportado")
  else if file_size > 500 * 1024 * 1024 then
    (false, "Arquivo muito grande")
  else
    (true, "Arquivo valido")

/-- The dict returned by `analisar_arquivo`. -/
structure ResultadoAnalise where
  sucesso : Bool
  erro : String := ""
  componentes_detectados : ℕ := 0
  area_total_m2 : ℚ := 0
  volume_total_m3 : ℚ := 0
  componentes : List Componente := []
  tempo_processamento : ℚ := 0
deriving Repr, DecidableEq

/-- Sequential ids assigned by `analisar_arquivo` (`enumerate` from 1). -/
def atribuir_ids (geometrias : List Componente) : List Componente :=
  ((List.range geometrias.length).zip geometrias).map
    (fun p => { p.2 with id := p.1 + 1 })

/-- `analisar_arquivo`.  External effects appear as parameters: `ext`
and `file_size` describe the upload, `mesh_data?` is the outcome of
`carregar_mesh` (`none` when trimesh could not parse the bytes), and
`rand_uniforme` is the value the external RNG call
`np.random.uniform(1.5, 4.2)` returned. -/
def analisar_arquivo (ext : String) (file_size : ℕ)
    (mesh_data? : Option MeshData) (rand_uniforme : ℚ) : ResultadoAnalise :=
  let v := validar_arquivo ext file_size
  if !v.1 then
    { sucesso := false, erro := v.2 }
  else
    match mesh_data? with
    | none =>
      { sucesso := false, erro := "Nao foi possivel carregar o arquivo 3D" }
    | some mesh_data =>
      let geometrias := extrair_geometrias mesh_data
      if geometrias.isEmpty then
        { sucesso := false
          erro := "Nenhum componente valido encontrado no arquivo" }
      else
        { sucesso := true
          componentes_detectados := geometrias.length
          area_total_m2 := round_dec (geometrias.map Componente.area_m2).sum 3
          volume_total_m3 := round_dec (geometrias.map Componente.volume_m3).sum 4
          componentes := atribuir_ids geometrias
          tempo_processamento := rand_uniforme }

/-! ## Specification-side model of the Classifier (for the refinement
claim about `classificar_componente`) -/

/-- Modelled from the spec (§4.4/§9): the dimension rules as an ordered
list of (predicate, type, confidence) entries, first match wins.  The
Cabinet rule of the spec carries a tall/low sub-split; it is listed
here as the tall entry followed by the low entry, in that order. -/
def regras_dimensoes : List ((ℚ → ℚ → ℚ → Bool) × String × ℚ) :=
  [ (fun largura altura profundidade =>
      decide (altura < 0.15) && (decide (largura > 0.8) && decide (profundidade > 0.4)),
     ("Bancada", 0.8)),
    (fun largura altura _ =>
      decide (altura < 0.05) && decide (largura > 0.3),
     ("Prateleira", 0.7)),
    (fun largura altura profundidade =>
      decide (altura > 0.4) && (decide (largura > 0.3) && decide (profundidade < 0.1)),
     ("Porta", 0.7)),
    (fun largura altura profundidade =>
      decide (altura < 0.25) && (decide (largura > 0.3) && decide (profundidade > 0.3)),
     ("Gaveta", 0.7)),
    (fun largura altura profundidade =>
      decide (altura > 0.5) && (decide (largura > 0.4) && (decide (profundidade > 0.3)
        && decide (altura > 1.5))),
     ("Armário Alto", 0.8)),
    (fun largura altura profundidade =>
      decide (altura > 0.5) && (decide (largura > 0.4) && decide (profundidade > 0.3)),
     ("Armário Baixo", 0.7)),
    (fun largura altura _ =>
      decide (altura > 0.5) && decide (largura < 0.2),
     ("Painel Lateral", 0.6)) ]

/-- First dimension rule whose predicate holds wins; no rule matches
means the generic component at confidence 0.5. -/
def aplica_regras (largura altura profundidade : ℚ) :
    List ((ℚ → ℚ → ℚ → Bool) × String × ℚ) → String × ℚ
  | [] => ("Componente", 0.5)
  | r :: rs =>
    if r.1 largura altura profundidade then r.2
    else aplica_regras largura altura profundidade rs

/-- Modelled from the spec (§4.4): keyword match at confidence 0.9
first, else the ordered dimension-rule list, else the generic
component at 0.5. -/
def classificar_componente_spec (largura altura profundidade : ℚ)
    (nome : String) : String × ℚ :=
  let nome_lower := minusculas nome
  match tipos_componentes.find?
      (fun p => p.2.any (fun palavra => contem palavra nome_lower)) with
  | some p => (mapear_tipo p.1, 0.9)
  | none => aplica_regras largura altura profundidade regras_dimensoes

/-! ## Rounding lemmas -/

/-- `round_dec` leaves a fraction with denominator `10 ^ n` unchanged. -/
theorem round_dec_int_div (z : ℤ) (n : ℕ) :
    round_dec ((z : ℚ) / 10 ^ n) n = (z : ℚ) / 10 ^ n := by
  unfold round_dec
  have h : ((z : ℚ) / 10 ^ n) * 10 ^ n = (z : ℚ) := by
    field_simp
  rw [h, round_intCast]

/-- `round_dec` moves its argument by at most half a unit in the last
place. -/
theorem abs_round_dec_sub (q : ℚ) (n : ℕ) :
    |round_dec q n - q| ≤ 1 / (2 * 10 ^ n) := by
  unfold round_dec
  have hpow : (0 : ℚ) < 10 ^ n := by positivity
  have h := abs_sub_round (q * 10 ^ n)
  have hrw : ((round (q * 10 ^ n) : ℤ) : ℚ) / 10 ^ n - q
      = -((q * 10 ^ n - (round (q * 10 ^ n) : ℤ)) / 10 ^ n) := by
    field_simp
    ring
  rw [hrw, abs_neg, abs_div, abs_of_pos hpow, div_le_div_iff₀ hpow (by positivity)]
  calc |q * 10 ^ n - ((round (q * 10 ^ n) : ℤ) : ℚ)| * (2 * 10 ^ n)
      ≤ (1 / 2) * (2 * 10 ^ n) := by
        apply mul_le_mul_of_nonneg_right h (by positivity)
    _ = 1 * 10 ^ n := by ring

/-- `round_dec` is monotone. -/
theorem round_dec_mono {a b : ℚ} (n : ℕ) (h : a ≤ b) :
    round_dec a n ≤ round_dec b n := by
  unfold round_dec
  have hpow : (0 : ℚ) < 10 ^ n := by positivity
  rw [div_le_div_iff_of_pos_right hpow]
  rw [round_eq, round_eq]
  exact_mod_cast Int.floor_mono (by nlinarith)

/-- The error bound specialised to two decimal places. -/
theorem abs_round_dec_sub_two (q : ℚ) : |round_dec q 2 - q| ≤ 1 / 200 := by
  have h := abs_round_dec_sub q 2
  norm_num at h
  linarith [h]

/-- `round_dec` at `n` decimals fixes `5 = 5000/10^3`-style values:
endpoint computations used by the extent-bound claims. -/
theorem round_dec_fix_3 (z : ℤ) : round_dec ((z : ℚ) / 1000) 3 = (z : ℚ) / 1000 := by
  have h := round_dec_int_div z 3
  norm_num at h ⊢
  exact h

/-! ## C7 — unit normalization -/

/-- C7: `analisar_geometria` divides all three raw extents by 1000
exactly when the largest exceeds 100, else keeps them; a box with
maximum raw extent 2750 normalizes to maximum 2.75 m, one with
maximum 2.75 stays unchanged. -/
theorem c7_normalizacao_unidades :
    (∀ dims : ℚ × ℚ × ℚ,
      normalizar_dimensoes dims =
        if max dims.1 (max dims.2.1 dims.2.2) > 100 then
          (dims.1 / 1000, dims.2.1 / 1000, dims.2.2 / 1000)
        else dims)
    ∧ normalizar_dimensoes (2750, 50, 30) = (2.75, 0.05, 0.03)
    ∧ normalizar_dimensoes (2.75, 0.5, 0.3) = (2.75, 0.5, 0.3) := by
  refine ⟨fun dims => rfl, ?_, ?_⟩
  · have hmax : max (2750 : ℚ) (max 50 30) = 2750 := by
      norm_num [max_def]
    unfold normalizar_dimensoes
    rw [hmax]
    norm_num
  · have hmax : max (2.75 : ℚ) (max 0.5 0.3) = 2.75 := by
      norm_num [max_def]
    unfold normalizar_dimensoes
    rw [hmax]
    norm_num

/-! ## C8 — geometric filtering -/

/-- C8: after unit normalization, any geometry with an extent over the
5/4/2 m caps or a minimum extent below 0.01 m makes
`analisar_geometria` return `none` (a silent drop), and every
component it does emit has all stored extents within those caps. -/
theorem c8_filtro_dimensoes (b : Bounds) (nome : String) (w h d : ℚ)
    (hdims : normalizar_dimensoes (dimensoes_brutas b) = (w, h, d)) :
    ((w > 5 ∨ h > 4 ∨ d > 2 ∨ min w (min h d) < 0.01) →
        analisar_geometria b nome = none)
    ∧ (∀ c, analisar_geometria b nome = some c →
        0.01 ≤ c.largura_m ∧ 0.01 ≤ c.altura_m ∧ 0.01 ≤ c.profundidade_m
        ∧ c.largura_m ≤ 5 ∧ c.altura_m ≤ 4 ∧ c.profundidade_m ≤ 2) := by
  have e001 : round_dec (0.01 : ℚ) 3 = 0.01 := by
    have h1 := round_dec_fix_3 10; norm_num at h1 ⊢; convert h1 using 2
  have e5 : round_dec (5 : ℚ) 3 = 5 := by
    have h1 := round_dec_fix_3 5000; norm_num at h1 ⊢; convert h1 using 2
  have e4 : round_dec (4 : ℚ) 3 = 4 := by
    have h1 := round_dec_fix_3 4000; norm_num at h1 ⊢; convert h1 using 2
  have e2 : round_dec (2 : ℚ) 3 = 2 := by
    have h1 := round_dec_fix_3 2000; norm_num at h1 ⊢; convert h1 using 2
  constructor
  · intro hbad
    simp only [analisar_geometria, hdims]
    split_ifs with h1 h2
    · rfl
    · rfl
    · exfalso
      push_neg at h1 h2
      obtain ⟨hw5, hh4, hd2⟩ := h1
      rw [le_min_iff, le_min_iff] at h2
      obtain ⟨a1, a2, a3⟩ := h2
      rcases hbad with hx | hx | hx | hx
      · linarith
      · linarith
      · linarith
      · rw [min_lt_iff, min_lt_iff] at hx
        rcases hx with hx | hx | hx <;> linarith
  · intro c hc
    simp only [analisar_geometria, hdims] at hc
    split_ifs at hc with h1 h2
    rw [Option.some_inj] at hc
    subst hc
    push_neg at h1 h2
    obtain ⟨hw5, hh4, hd2⟩ := h1
    rw [le_min_iff, le_min_iff] at h2
    obtain ⟨hw0, hh0, hd0⟩ := h2
    refine ⟨?_, ?_, ?_, ?_, ?_, ?_⟩ <;> simp only []
    · rw [← e001]; exact round_dec_mono 3 hw0
    · rw [← e001]; exact round_dec_mono 3 hh0
    · rw [← e001]; exact round_dec_mono 3 hd0
    · rw [← e5]; exact round_dec_mono 3 hw5
    · rw [← e4]; exact round_dec_mono 3 hh4
    · rw [← e2]; exact round_dec_mono 3 hd2

/-- Witness for C8: a 6 m wide box is silently dropped. -/
theorem c8_filtro_dimensoes_witness :
    analisar_geometria ((0, 0, 0), (6, 1, 1)) "caixa" = none := by
  have hdims :
      normalizar_dimensoes (dimensoes_brutas ((0, 0, 0), (6, 1, 1)))
        = (6, 1, 1) := by
    norm_num [dimensoes_brutas, normalizar_dimensoes, max_def]
  exact (c8_filtro_dimensoes ((0, 0, 0), (6, 1, 1)) "caixa" 6 1 1 hdims).1
    (by norm_num)

/-! ## C6 — the Synthetic Component Simulator -/

/-- C6: for every bounding box, height over 1.5 m yields exactly one
door (half-width minus 0.05 m, 0.9 height, 0.02 m thick, confidence
0.85) followed by exactly `max 2 ⌊height/0.4⌋` shelves (width − 0.1 m,
0.02 m thick, depth − 0.1 m, confidence 0.80); height under 0.3 m
yields exactly one full-box countertop at confidence 0.90; anything
else yields nothing. -/
theorem c6_simulador (b : Bounds) (w h d : ℚ)
    (hdims : dimensoes_brutas b = (w, h, d)) :
    (h > 1.5 →
      simular_componentes b =
        porta_simulada b w h ::
          (List.range (max 2 (⌊h / 0.4⌋).toNat)).map
            (prateleira_simulada b w d)
      ∧ (porta_simulada b w h).tipo = "Porta"
      ∧ (porta_simulada b w h).largura_m = round_dec (w / 2 - 0.05) 3
      ∧ (porta_simulada b w h).altura_m = round_dec (h * 0.9) 3
      ∧ (porta_simulada b w h).profundidade_m = 0.02
      ∧ (porta_simulada b w h).confianca = 0.85
      ∧ ∀ c ∈ (List.range (max 2 (⌊h / 0.4⌋).toNat)).map
            (prateleira_simulada b w d),
          c.tipo = "Prateleira" ∧ c.largura_m = round_dec (w - 0.1) 3
          ∧ c.altura_m = 0.02 ∧ c.profundidade_m = round_dec (d - 0.1) 3
          ∧ c.confianca = 0.80)
    ∧ (h < 0.3 →
      simular_componentes b = [bancada_simulada b w h d]
      ∧ (bancada_simulada b w h d).tipo = "Bancada"
      ∧ (bancada_simulada b w h d).largura_m = round_dec w 3
      ∧ (bancada_simulada b w h d).altura_m = round_dec h 3
      ∧ (bancada_simulada b w h d).profundidade_m = round_dec d 3
      ∧ (bancada_simulada b w h d).confianca = 0.90)
    ∧ (¬ h > 1.5 → ¬ h < 0.3 → simular_componentes b = []) := by
  refine ⟨fun hh => ?_, fun hh => ?_, fun hh1 hh2 => ?_⟩
  · simp only [simular_componentes, hdims]
    rw [if_pos hh]
    refine ⟨rfl, rfl, rfl, rfl, rfl, rfl, ?_⟩
    intro c hc
    simp only [List.mem_map, List.mem_range] at hc
    obtain ⟨i, _, rfl⟩ := hc
    exact ⟨rfl, rfl, rfl, rfl, rfl⟩
  · simp only [simular_componentes, hdims]
    rw [if_neg (by linarith), if_pos hh]
    exact ⟨rfl, rfl, rfl, rfl, rfl, rfl⟩
  · simp only [simular_componentes, hdims]
    rw [if_neg hh1, if_neg hh2]

/-- Witness for C6: a 1 × 2 × 0.6 m box produces one door and five
shelves. -/
theorem c6_simulador_witness :
    simular_componentes ((0, 0, 0), (1, 2, 0.6)) =
      porta_simulada ((0, 0, 0), (1, 2, 0.6)) 1 2 ::
        (List.range 5).map (prateleira_simulada ((0, 0, 0), (1, 2, 0.6)) 1 0.6)
    ∧ (simular_componentes ((0, 0, 0), (1, 2, 0.6))).length = 6 := by
  have hdims : dimensoes_brutas ((0, 0, 0), (1, 2, 0.6)) = (1, 2, 0.6) := by
    norm_num [dimensoes_brutas]
  have hmain := (c6_simulador ((0, 0, 0), (1, 2, 0.6)) 1 2 0.6 hdims).1
    (by norm_num)
  have hnum : max 2 (⌊(2 : ℚ) / 0.4⌋).toNat = 5 := by
    have h5 : ⌊(2 : ℚ) / 0.4⌋ = 5 := by norm_num
    rw [h5]
    decide
  rw [hnum] at hmain
  refine ⟨hmain.1, ?_⟩
  rw [hmain.1]
  simp

/-! ## C4 — the Component Classifier -/

set_option maxHeartbeats 1600000 in
/-- C4: `classificar_componente` is a deterministic function of
(width, height, depth, name) agreeing everywhere with the
specification's rule list `classificar_componente_spec`: a keyword
match on the lowered name returns the mapped type at confidence 0.9
and outranks every dimension rule; otherwise the dimension rules are
tried in the fixed order with first match winning, defaulting to the
generic component at confidence 0.5. -/
theorem c4_classificador_refinamento
    (largura altura profundidade : ℚ) (nome : String) :
    classificar_componente largura altura profundidade nome
      = classificar_componente_spec largura altura profundidade nome := by
  simp only [classificar_componente, classificar_componente_spec]
  cases hfind : tipos_componentes.find?
      (fun p => p.2.any (fun palavra => contem palavra (minusculas nome))) with
  | some p => rfl
  | none =>
    simp only [regras_dimensoes, aplica_regras, Bool.and_eq_true,
      decide_eq_true_eq]
    split_ifs <;> first | rfl | (norm_num; done) | tauto

/-! ## Decomposition lemmas for the Cost Composer -/

/-- Summed pointwise error bound over a component list. -/
theorem list_sum_sub_abs_le (l : List Componente) (f g : Componente → ℚ)
    (e : ℚ) (h : ∀ a ∈ l, |f a - g a| ≤ e) :
    |(l.map f).sum - (l.map g).sum| ≤ (l.length : ℚ) * e := by
  induction l with
  | nil => simp
  | cons x xs ih =>
    simp only [List.map_cons, List.sum_cons, List.length_cons]
    have h1 := h x (by simp)
    have h2 := ih (fun a ha => h a (by simp [ha]))
    calc |f x + (xs.map f).sum - (g x + (xs.map g).sum)|
        = |(f x - g x) + ((xs.map f).sum - (xs.map g).sum)| := by ring_nf
      _ ≤ |f x - g x| + |(xs.map f).sum - (xs.map g).sum| := abs_add _ _
      _ ≤ e + (xs.length : ℚ) * e := add_le_add h1 h2
      _ = ((xs.length : ℚ) + 1) * e := by ring
      _ = (((xs.length + 1 : ℕ)) : ℚ) * e := by push_cast; ring

theorem custo_itens_conta (itens : ItensAcessorios) (comp : Componente)
    (precos : PrecosAcessorios) :
    custo_itens (conta_acessorios_comp itens comp) precos
      = custo_itens itens precos + custo_acessorios_individual precos comp := by
  simp only [conta_acessorios_comp, custo_acessorios_individual]
  split_ifs <;> simp only [custo_itens] <;> push_cast <;> ring

theorem custo_itens_foldl (comps : List Componente) (itens : ItensAcessorios)
    (precos : PrecosAcessorios) :
    custo_itens (comps.foldl conta_acessorios_comp itens) precos
      = custo_itens itens precos
        + (comps.map (custo_acessorios_individual precos)).sum := by
  induction comps generalizing itens with
  | nil => simp
  | cons c cs ih =>
    simp only [List.foldl_cons, List.map_cons, List.sum_cons, ih,
      custo_itens_conta]
    ring

theorem custo_itens_vazio (precos : PrecosAcessorios) :
    custo_itens {} precos = 0 := by
  simp [custo_itens]

theorem calcular_acessorios_total (comps : List Componente) (qualidade : String) :
    (calcular_acessorios comps qualidade).custo_total
      = round_dec
          ((comps.map
            (custo_acessorios_individual (obter_precos_acessorios qualidade))).sum)
          2 := by
  simp [calcular_acessorios, custo_itens_foldl, custo_itens_vazio]

theorem calcular_materiais_total (comps : List Componente) (tipo : String) :
    (calcular_materiais comps tipo).custo_total
      = round_dec
          ((comps.map (fun c =>
            c.area_m2 * (1 + (obter_preco_material tipo).desperdicio_percentual)
              * (obter_preco_material tipo).preco_m2)).sum) 2 := by
  simp only [calcular_materiais, area_total_componentes]
  congr 1
  rw [show (fun c : Componente =>
      c.area_m2 * (1 + (obter_preco_material tipo).desperdicio_percentual)
        * (obter_preco_material tipo).preco_m2)
    = (fun c : Componente =>
      c.area_m2 * ((1 + (obter_preco_material tipo).desperdicio_percentual)
        * (obter_preco_material tipo).preco_m2)) from funext (fun c => by ring)]
  rw [List.sum_map_mul_right]
  ring

theorem calcular_mao_obra_total (comps : List Componente) (complexidade : String) :
    (calcular_mao_obra comps complexidade).custo_total
      = round_dec
          ((comps.map (fun c =>
            c.area_m2 * obter_custo_mao_obra complexidade)).sum) 2 := by
  simp only [calcular_mao_obra, area_total_componentes]
  congr 1
  rw [List.sum_map_mul_right]

theorem corte_um (comp : Componente) :
    calcular_custo_corte_estimado [comp]
      = round_dec (custo_corte_componente comp) 2 := by
  simp [calcular_custo_corte_estimado]

/-- Four-way sum splitting for mapped lists. -/
theorem sum_map_add4 (l : List Componente) (f g h k : Componente → ℚ) :
    (l.map (fun c => f c + g c + h c + k c)).sum
      = (l.map f).sum + (l.map g).sum + (l.map h).sum + (l.map k).sum := by
  induction l with
  | nil => simp
  | cons x xs ih =>
    simp only [List.map_cons, List.sum_cons, ih]
    ring

/-- A sum of four already-rounded amounts is fixed by `round_dec`. -/
theorem round_dec_soma_arredondados (a b c d : ℚ) :
    round_dec (round_dec a 2 + round_dec b 2 + round_dec c 2 + round_dec d 2) 2
      = round_dec a 2 + round_dec b 2 + round_dec c 2 + round_dec d 2 := by
  have ha : round_dec a 2 = ((round (a * 10 ^ 2) : ℤ) : ℚ) / 10 ^ 2 := rfl
  have hb : round_dec b 2 = ((round (b * 10 ^ 2) : ℤ) : ℚ) / 10 ^ 2 := rfl
  have hc : round_dec c 2 = ((round (c * 10 ^ 2) : ℤ) : ℚ) / 10 ^ 2 := rfl
  have hd : round_dec d 2 = ((round (d * 10 ^ 2) : ℤ) : ℚ) / 10 ^ 2 := rfl
  have hsum : round_dec a 2 + round_dec b 2 + round_dec c 2 + round_dec d 2
      = (((round (a * 10 ^ 2) + round (b * 10 ^ 2)
          + round (c * 10 ^ 2) + round (d * 10 ^ 2) : ℤ)) : ℚ) / 10 ^ 2 := by
    rw [ha, hb, hc, hd]
    push_cast
    ring
  rw [hsum, round_dec_int_div]

/-- The reported per-component pre-margin subtotal. -/
theorem subtotal_individual (info : InfoMaterial) (precos : PrecosAcessorios)
    (mo margem : ℚ) (comp : Componente) :
    (custo_individual_comp info precos mo margem comp).subtotal
      = round_dec
          (comp.area_m2 * (1 + info.desperdicio_percentual) * info.preco_m2
            + custo_acessorios_individual precos comp
            + comp.area_m2 * mo
            + round_dec (custo_corte_componente comp) 2) 2 := by
  simp only [custo_individual_comp, corte_um]

/-! ## C1 — additivity of per-component subtotals -/

/-- Counterexample to C1 as stated: three plain components with areas
0.2298, 0.1893 and 0.1344 m² under the default configuration give
per-component subtotals summing to 175.35 while the project pre-margin
subtotal is 175.37 — a gap of 0.02 > 0.01. -/
theorem c1_tolerancia_contraexemplo :
    ¬ (|((calcular_custos_individuais
          [{ tipo := "Componente", largura_m := 0.1, altura_m := 0.1, area_m2 := 0.2298 },
           { tipo := "Componente", largura_m := 0.1, altura_m := 0.1, area_m2 := 0.1893 },
           { tipo := "Componente", largura_m := 0.1, altura_m := 0.1, area_m2 := 0.1344 }]
          { tipo_material := "mdf_15mm", qualidade_acessorios := "comum",
            complexidade := "media", margem_lucro := 0.30 }).map
            CustoIndividual.subtotal).sum
        - (gerar_orcamento_completo
            [{ tipo := "Componente", largura_m := 0.1, altura_m := 0.1, area_m2 := 0.2298 },
             { tipo := "Componente", largura_m := 0.1, altura_m := 0.1, area_m2 := 0.1893 },
             { tipo := "Componente", largura_m := 0.1, altura_m := 0.1, area_m2 := 0.1344 }]
            (some { tipo_material := "mdf_15mm", qualidade_acessorios := "comum",
                    complexidade := "media", margem_lucro := 0.30
                    })).resumo.subtotal_antes_margem|
      ≤ 1 / 100) := by
  have hmao : obter_custo_mao_obra "media" = 156 := by
    rw [obter_custo_mao_obra,
      show multiplicadores_complexidade.lookup "media" = some 1.3 from rfl]
    norm_num [CUSTOS_MAO_OBRA_base_m2]
  have hC : ∀ a : ℚ, custo_corte_componente
      { tipo := "Componente", largura_m := 0.1, altura_m := 0.1, area_m2 := a } = 15 := by
    intro a
    simp only [custo_corte_componente, CUSTOS_CORTE_corte_reto_metro,
      CUSTOS_CORTE_taxa_minima, CUSTOS_CORTE_furo_dobradica,
      CUSTOS_CORTE_rebaixo_metro]
    rw [if_neg (by decide), if_neg (by decide)]
    norm_num [max_def]
  have hA : ∀ a : ℚ, custo_acessorios_individual acessorios_comum
      { tipo := "Componente", largura_m := 0.1, altura_m := 0.1, area_m2 := a } = 0 := by
    intro a
    simp only [custo_acessorios_individual]
    rw [if_neg (by decide), if_neg (by decide), if_neg (by decide)]
    norm_num
  have h15 : round_dec (15 : ℚ) 2 = 15 := by norm_num [round_dec, round_eq]
  have hsub : ∀ a : ℚ, (custo_individual_comp mdf_15mm acessorios_comum 156 0.30
      { tipo := "Componente", largura_m := 0.1, altura_m := 0.1, area_m2 := a }).subtotal
      = round_dec (a * 235.5225 + 15) 2 := by
    intro a
    rw [subtotal_individual, hA, hC, h15]
    congr 1
    norm_num [mdf_15mm]
    ring
  have hlhs : ((calcular_custos_individuais
        [{ tipo := "Componente", largura_m := 0.1, altura_m := 0.1, area_m2 := 0.2298 },
         { tipo := "Componente", largura_m := 0.1, altura_m := 0.1, area_m2 := 0.1893 },
         { tipo := "Componente", largura_m := 0.1, altura_m := 0.1, area_m2 := 0.1344 }]
        { tipo_material := "mdf_15mm", qualidade_acessorios := "comum",
          complexidade := "media", margem_lucro := 0.30 }).map
          CustoIndividual.subtotal).sum = 175.35 := by
    simp only [calcular_custos_individuais,
      show obter_preco_material "mdf_15mm" = mdf_15mm from rfl,
      show obter_precos_acessorios "comum" = acessorios_comum from rfl, hmao,
      List.map_cons, List.map_nil, List.sum_cons, List.sum_nil, hsub]
    rw [show round_dec ((0.2298 : ℚ) * 235.5225 + 15) 2 = 69.12 by
        norm_num [round_dec, round_eq],
      show round_dec ((0.1893 : ℚ) * 235.5225 + 15) 2 = 59.58 by
        norm_num [round_dec, round_eq],
      show round_dec ((0.1344 : ℚ) * 235.5225 + 15) 2 = 46.65 by
        norm_num [round_dec, round_eq]]
    norm_num
  have hrhs : (gerar_orcamento_completo
      [{ tipo := "Componente", largura_m := 0.1, altura_m := 0.1, area_m2 := 0.2298 },
       { tipo := "Componente", largura_m := 0.1, altura_m := 0.1, area_m2 := 0.1893 },
       { tipo := "Componente", largura_m := 0.1, altura_m := 0.1, area_m2 := 0.1344 }]
      (some { tipo_material := "mdf_15mm", qualidade_acessorios := "comum",
              complexidade := "media", margem_lucro := 0.30
              })).resumo.subtotal_antes_margem = 175.37 := by
    rw [show (gerar_orcamento_completo
        [{ tipo := "Componente", largura_m := 0.1, altura_m := 0.1, area_m2 := 0.2298 },
         { tipo := "Componente", largura_m := 0.1, altura_m := 0.1, area_m2 := 0.1893 },
         { tipo := "Componente", largura_m := 0.1, altura_m := 0.1, area_m2 := 0.1344 }]
        (some { tipo_material := "mdf_15mm", qualidade_acessorios := "comum",
                complexidade := "media", margem_lucro := 0.30
                })).resumo.subtotal_antes_margem
      = round_dec ((calcular_materiais
          [{ tipo := "Componente", largura_m := 0.1, altura_m := 0.1, area_m2 := 0.2298 },
           { tipo := "Componente", largura_m := 0.1, altura_m := 0.1, area_m2 := 0.1893 },
           { tipo := "Componente", largura_m := 0.1, altura_m := 0.1, area_m2 := 0.1344 }]
          "mdf_15mm").custo_total
        + (calcular_acessorios
          [{ tipo := "Componente", largura_m := 0.1, altura_m := 0.1, area_m2 := 0.2298 },
           { tipo := "Componente", largura_m := 0.1, altura_m := 0.1, area_m2 := 0.1893 },
           { tipo := "Componente", largura_m := 0.1, altura_m := 0.1, area_m2 := 0.1344 }]
          "comum").custo_total
        + (calcular_mao_obra
          [{ tipo := "Componente", largura_m := 0.1, altura_m := 0.1, area_m2 := 0.2298 },
           { tipo := "Componente", largura_m := 0.1, altura_m := 0.1, area_m2 := 0.1893 },
           { tipo := "Componente", largura_m := 0.1, altura_m := 0.1, area_m2 := 0.1344 }]
          "media").custo_total
        + (calcular_corte
          [{ tipo := "Componente", largura_m := 0.1, altura_m := 0.1, area_m2 := 0.2298 },
           { tipo := "Componente", largura_m := 0.1, altura_m := 0.1, area_m2 := 0.1893 },
           { tipo := "Componente", largura_m := 0.1, altura_m := 0.1, area_m2 := 0.1344 }]).custo_total) 2
      from rfl]
    rw [calcular_materiais_total, calcular_acessorios_total, calcular_mao_obra_total]
    rw [show obter_preco_material "mdf_15mm" = mdf_15mm from rfl,
      show obter_precos_acessorios "comum" = acessorios_comum from rfl, hmao]
    simp only [List.map_cons, List.map_nil, List.sum_cons, List.sum_nil, hA,
      calcular_corte, calcular_custo_corte_estimado, hC]
    rw [show mdf_15mm.desperdicio_percentual = 0.15 from rfl,
      show mdf_15mm.preco_m2 = 69.15 from rfl]
    rw [show ((0.2298 : ℚ) * (1 + 0.15) * 69.15 + (0.1893 * (1 + 0.15) * 69.15
        + (0.1344 * (1 + 0.15) * 69.15 + 0))) = 44.0157037500 by norm_num,
      show ((0.2298 : ℚ) * 156 + (0.1893 * 156 + (0.1344 * 156 + 0))) = 86.346 by norm_num]
    rw [show round_dec (44.0157037500 : ℚ) 2 = 44.02 by norm_num [round_dec, round_eq],
      show round_dec ((0 : ℚ) + (0 + (0 + 0))) 2 = 0 by norm_num [round_dec, round_eq],
      show round_dec (86.346 : ℚ) 2 = 86.35 by norm_num [round_dec, round_eq],
      show round_dec ((15 : ℚ) + (15 + (15 + 0))) 2 = 45 by norm_num [round_dec, round_eq]]
    norm_num [round_dec, round_eq]
  rw [hlhs, hrhs]
  rw [show (175.35 : ℚ) - 175.37 = -(1 / 50) by norm_num, abs_neg,
    abs_of_nonneg (by norm_num : (0 : ℚ) ≤ 1 / 50)]
  norm_num

/-- C1 amended: the sum of per-component pre-margin subtotals agrees
with the project pre-margin subtotal only within
±(0.01·N + 0.02) for N components (±0.005 per outer and per inner
cut rounding on each component, plus four category roundings),
not within ±0.01. -/
theorem c1_aditividade_com_tolerancia_linear (componentes : List Componente) (cfg : Configuracoes) :
    |((calcular_custos_individuais componentes cfg).map CustoIndividual.subtotal).sum
        - (gerar_orcamento_completo componentes (some cfg)).resumo.subtotal_antes_margem|
      ≤ (componentes.length : ℚ) / 100 + 1 / 50 := by
  have hinfo : obter_preco_material cfg.tipo_material = obter_preco_material cfg.tipo_material := rfl
  -- shorthand functions
  let M : Componente → ℚ := fun c =>
    c.area_m2 * (1 + (obter_preco_material cfg.tipo_material).desperdicio_percentual)
      * (obter_preco_material cfg.tipo_material).preco_m2
  let A : Componente → ℚ :=
    custo_acessorios_individual (obter_precos_acessorios cfg.qualidade_acessorios)
  let L : Componente → ℚ := fun c => c.area_m2 * obter_custo_mao_obra cfg.complexidade
  let Cr : Componente → ℚ := custo_corte_componente
  let s : Componente → ℚ := fun c => M c + A c + L c + round_dec (Cr c) 2
  -- the per-component side
  have hmap : (calcular_custos_individuais componentes cfg).map CustoIndividual.subtotal
      = componentes.map (fun c => round_dec (s c) 2) := by
    simp only [calcular_custos_individuais, List.map_map]
    apply List.map_congr_left
    intro c _
    exact subtotal_individual _ _ _ _ c
  -- the project side
  have hres : (gerar_orcamento_completo componentes (some cfg)).resumo.subtotal_antes_margem
      = round_dec ((componentes.map M).sum) 2 + round_dec ((componentes.map A).sum) 2
        + round_dec ((componentes.map L).sum) 2 + round_dec ((componentes.map Cr).sum) 2 := by
    show round_dec ((calcular_materiais componentes cfg.tipo_material).custo_total
        + (calcular_acessorios componentes cfg.qualidade_acessorios).custo_total
        + (calcular_mao_obra componentes cfg.complexidade).custo_total
        + (calcular_corte componentes).custo_total) 2 = _
    rw [calcular_materiais_total, calcular_acessorios_total, calcular_mao_obra_total]
    show round_dec (_ + _ + _ + calcular_custo_corte_estimado componentes) 2 = _
    rw [show calcular_custo_corte_estimado componentes
        = round_dec ((componentes.map Cr).sum) 2 from rfl]
    exact round_dec_soma_arredondados _ _ _ _
  rw [hmap, hres]
  -- abbreviate the four stations
  have hXY : |(componentes.map (fun c => round_dec (s c) 2)).sum
      - (componentes.map s).sum| ≤ (componentes.length : ℚ) * (1 / 200) :=
    list_sum_sub_abs_le componentes _ s (1 / 200)
      (fun a _ => abs_round_dec_sub_two (s a))
  have hsplit : (componentes.map s).sum
      = (componentes.map M).sum + (componentes.map A).sum + (componentes.map L).sum
        + (componentes.map (fun c => round_dec (Cr c) 2)).sum :=
    sum_map_add4 componentes M A L (fun c => round_dec (Cr c) 2)
  have hCr : |(componentes.map (fun c => round_dec (Cr c) 2)).sum
      - (componentes.map Cr).sum| ≤ (componentes.length : ℚ) * (1 / 200) :=
    list_sum_sub_abs_le componentes _ Cr (1 / 200)
      (fun a _ => abs_round_dec_sub_two (Cr a))
  have eM := abs_round_dec_sub_two ((componentes.map M).sum)
  have eA := abs_round_dec_sub_two ((componentes.map A).sum)
  have eL := abs_round_dec_sub_two ((componentes.map L).sum)
  have eC := abs_round_dec_sub_two ((componentes.map Cr).sum)
  -- combine with the triangle inequality
  rw [abs_le]
  have b1 := abs_le.mp hXY
  have b2 := abs_le.mp hCr
  have b3 := abs_le.mp eM
  have b4 := abs_le.mp eA
  have b5 := abs_le.mp eL
  have b6 := abs_le.mp eC
  constructor <;>
    linarith [hsplit, b1.1, b1.2, b2.1, b2.2, b3.1, b3.2, b4.1, b4.2,
      b5.1, b5.2, b6.1, b6.2]

/-! ## C9 — budget arithmetic identities -/

/-- `round_dec` is idempotent. -/
theorem round_dec_idem (q : ℚ) (n : ℕ) :
    round_dec (round_dec q n) n = round_dec q n := by
  have h : round_dec q n = ((round (q * 10 ^ n) : ℤ) : ℚ) / 10 ^ n := rfl
  rw [h, round_dec_int_div]

theorem materiais_ja_arredondado (comps : List Componente) (tipo : String) :
    round_dec ((calcular_materiais comps tipo).custo_total) 2
      = (calcular_materiais comps tipo).custo_total := by
  simp only [calcular_materiais]
  exact round_dec_idem _ 2

theorem acessorios_ja_arredondado (comps : List Componente) (q : String) :
    round_dec ((calcular_acessorios comps q).custo_total) 2
      = (calcular_acessorios comps q).custo_total := by
  simp only [calcular_acessorios]
  exact round_dec_idem _ 2

theorem mao_obra_ja_arredondado (comps : List Componente) (cx : String) :
    round_dec ((calcular_mao_obra comps cx).custo_total) 2
      = (calcular_mao_obra comps cx).custo_total := by
  simp only [calcular_mao_obra]
  exact round_dec_idem _ 2

theorem corte_ja_arredondado (comps : List Componente) :
    round_dec ((calcular_corte comps).custo_total) 2
      = (calcular_corte comps).custo_total := by
  simp only [calcular_corte, calcular_custo_corte_estimado]
  exact round_dec_idem _ 2

theorem round_dec_soma_fixos (a b c d : ℚ) (ha : round_dec a 2 = a)
    (hb : round_dec b 2 = b) (hc : round_dec c 2 = c)
    (hd : round_dec d 2 = d) :
    round_dec (a + b + c + d) 2 = a + b + c + d := by
  calc round_dec (a + b + c + d) 2
      = round_dec (round_dec a 2 + round_dec b 2 + round_dec c 2
          + round_dec d 2) 2 := by rw [ha, hb, hc, hd]
    _ = round_dec a 2 + round_dec b 2 + round_dec c 2 + round_dec d 2 :=
        round_dec_soma_arredondados a b c d
    _ = a + b + c + d := by rw [ha, hb, hc, hd]

/-- C9: in every produced budget the reported pre-margin subtotal is
exactly the sum of the four reported category subtotals, the margin is
the subtotal times the margin fraction, the final total is
subtotal × (1 + margin) (so margin 0 gives final = subtotal and zero
margin amount), and the rate per m² is final/area when the total area
is positive and 0 when it is zero — with rounding only at output. -/
theorem c9_formulas_orcamento (componentes : List Componente) (cfg : Configuracoes) :
    ((gerar_orcamento_completo componentes (some cfg)).resumo.subtotal_antes_margem
      = (gerar_orcamento_completo componentes (some cfg)).resumo.subtotal_materiais
        + (gerar_orcamento_completo componentes (some cfg)).resumo.subtotal_acessorios
        + (gerar_orcamento_completo componentes (some cfg)).resumo.subtotal_mao_obra
        + (gerar_orcamento_completo componentes (some cfg)).resumo.subtotal_corte)
    ∧ ((gerar_orcamento_completo componentes (some cfg)).resumo.valor_margem
      = round_dec
          ((gerar_orcamento_completo componentes (some cfg)).resumo.subtotal_antes_margem
            * cfg.margem_lucro) 2)
    ∧ ((gerar_orcamento_completo componentes (some cfg)).resumo.valor_final
      = round_dec
          ((gerar_orcamento_completo componentes (some cfg)).resumo.subtotal_antes_margem
            * (1 + cfg.margem_lucro)) 2)
    ∧ (cfg.margem_lucro = 0 →
        (gerar_orcamento_completo componentes (some cfg)).resumo.valor_final
          = (gerar_orcamento_completo componentes (some cfg)).resumo.subtotal_antes_margem
        ∧ (gerar_orcamento_completo componentes (some cfg)).resumo.valor_margem = 0)
    ∧ (area_total_componentes componentes = 0 →
        (gerar_orcamento_completo componentes (some cfg)).resumo.valor_por_m2 = 0)
    ∧ (area_total_componentes componentes > 0 →
        (gerar_orcamento_completo componentes (some cfg)).resumo.valor_por_m2
          = round_dec
              (((gerar_orcamento_completo componentes (some cfg)).resumo.subtotal_antes_margem
                * (1 + cfg.margem_lucro)) / area_total_componentes componentes) 2) := by
  have hS : round_dec
      ((calcular_materiais componentes cfg.tipo_material).custo_total
        + (calcular_acessorios componentes cfg.qualidade_acessorios).custo_total
        + (calcular_mao_obra componentes cfg.complexidade).custo_total
        + (calcular_corte componentes).custo_total) 2
      = (calcular_materiais componentes cfg.tipo_material).custo_total
        + (calcular_acessorios componentes cfg.qualidade_acessorios).custo_total
        + (calcular_mao_obra componentes cfg.complexidade).custo_total
        + (calcular_corte componentes).custo_total :=
    round_dec_soma_fixos _ _ _ _
      (materiais_ja_arredondado componentes cfg.tipo_material)
      (acessorios_ja_arredondado componentes cfg.qualidade_acessorios)
      (mao_obra_ja_arredondado componentes cfg.complexidade)
      (corte_ja_arredondado componentes)
  have hsub : (gerar_orcamento_completo componentes (some cfg)).resumo.subtotal_antes_margem
      = (calcular_materiais componentes cfg.tipo_material).custo_total
        + (calcular_acessorios componentes cfg.qualidade_acessorios).custo_total
        + (calcular_mao_obra componentes cfg.complexidade).custo_total
        + (calcular_corte componentes).custo_total := hS
  have hmatf : (gerar_orcamento_completo componentes (some cfg)).resumo.subtotal_materiais
      = (calcular_materiais componentes cfg.tipo_material).custo_total :=
    materiais_ja_arredondado componentes cfg.tipo_material
  have hacef : (gerar_orcamento_completo componentes (some cfg)).resumo.subtotal_acessorios
      = (calcular_acessorios componentes cfg.qualidade_acessorios).custo_total :=
    acessorios_ja_arredondado componentes cfg.qualidade_acessorios
  have hmaof : (gerar_orcamento_completo componentes (some cfg)).resumo.subtotal_mao_obra
      = (calcular_mao_obra componentes cfg.complexidade).custo_total :=
    mao_obra_ja_arredondado componentes cfg.complexidade
  have hcortef : (gerar_orcamento_completo componentes (some cfg)).resumo.subtotal_corte
      = (calcular_corte componentes).custo_total :=
    corte_ja_arredondado componentes
  refine ⟨?_, ?_, ?_, ?_, ?_, ?_⟩
  · rw [hsub, hmatf, hacef, hmaof, hcortef]
  · rw [hsub]
    rfl
  · rw [hsub]
    show round_dec (_ + _ * cfg.margem_lucro) 2 = _
    congr 1
    simp only [Option.getD_some]
    ring
  · intro hm
    constructor
    · show round_dec (_ + _ * cfg.margem_lucro) 2 = _
      rw [hm, hsub]
      rw [show ∀ x : ℚ, x + x * 0 = x from fun x => by ring]
      exact hS
    · show round_dec (_ * cfg.margem_lucro) 2 = 0
      rw [hm]
      rw [show ∀ x : ℚ, x * (0 : ℚ) = 0 from fun x => by ring]
      norm_num [round_dec, round_eq]
  · intro ha
    show round_dec (if area_total_componentes componentes > 0 then _ else 0) 2 = 0
    rw [if_neg (by rw [ha]; exact lt_irrefl 0)]
    norm_num [round_dec, round_eq]
  · intro ha
    rw [hsub]
    show round_dec (if area_total_componentes componentes > 0 then
        (_ + _ * cfg.margem_lucro) / area_total_componentes componentes else 0) 2 = _
    rw [if_pos ha]
    congr 1
    simp only [Option.getD_some]
    ring

/-- Witness for C9: the empty list at margin 0 gives zero margin amount
and zero rate per m². -/
theorem c9_formulas_orcamento_witness :
    (gerar_orcamento_completo []
      (some { tipo_material := "mdf_15mm", qualidade_acessorios := "comum",
              complexidade := "media", margem_lucro := 0 })).resumo.valor_margem = 0
    ∧ (gerar_orcamento_completo []
      (some { tipo_material := "mdf_15mm", qualidade_acessorios := "comum",
              complexidade := "media", margem_lucro := 0 })).resumo.valor_por_m2 = 0 := by
  have h := c9_formulas_orcamento []
    { tipo_material := "mdf_15mm", qualidade_acessorios := "comum",
      complexidade := "media", margem_lucro := 0 }
  exact ⟨(h.2.2.2.1 rfl).2, h.2.2.2.2.1 (by simp [area_total_componentes])⟩

/-! ## C2 — configuration validation -/

/-- Counterexample to C2 as stated: for the empty component list and
margin 1.5 ∉ [0,1) the composer does not fail — no ConfigurationError
exists anywhere in the code — and returns a complete budget result
(the all-zero summary). -/
theorem c2_sem_validacao_contraexemplo :
    (gerar_orcamento_completo []
      (some { tipo_material := "mdf_15mm", qualidade_acessorios := "comum",
              complexidade := "media", margem_lucro := 1.5 })).resumo
      = { subtotal_materiais := 0, subtotal_acessorios := 0, subtotal_mao_obra := 0,
          subtotal_corte := 0, subtotal_antes_margem := 0, valor_margem := 0,
          valor_final := 0, area_total_m2 := 0, valor_por_m2 := 0 }
    ∧ ((1.5 : ℚ) < 0 ∨ 1 ≤ (1.5 : ℚ)) := by
  constructor
  · norm_num [gerar_orcamento_completo, calcular_materiais, calcular_acessorios,
      calcular_mao_obra, calcular_corte, calcular_custo_corte_estimado,
      area_total_componentes, custo_itens, round_dec, round_eq,
      Option.getD_some, mdf_15mm,
      show obter_preco_material "mdf_15mm" = mdf_15mm from rfl]
  · norm_num

/-- C2 amended: `gerar_orcamento_completo` performs no validation of
the margin or the component list; for every configuration (any margin
whatsoever) and the empty list it still returns a budget, whose
summary is all zeros with rate per m² 0 and an empty per-component
list. -/
theorem c2_sem_validacao (cfg : Configuracoes) :
    (gerar_orcamento_completo [] (some cfg)).resumo.subtotal_antes_margem = 0
    ∧ (gerar_orcamento_completo [] (some cfg)).resumo.valor_margem = 0
    ∧ (gerar_orcamento_completo [] (some cfg)).resumo.valor_final = 0
    ∧ (gerar_orcamento_completo [] (some cfg)).resumo.valor_por_m2 = 0
    ∧ (gerar_orcamento_completo [] (some cfg)).custos_individuais = [] := by
  have h0 : round_dec (0 : ℚ) 2 = 0 := by norm_num [round_dec, round_eq]
  have hmat : (calcular_materiais [] cfg.tipo_material).custo_total = 0 := by
    simp only [calcular_materiais, area_total_componentes, List.map_nil,
      List.sum_nil, zero_mul, h0]
  have hace : (calcular_acessorios [] cfg.qualidade_acessorios).custo_total = 0 := by
    simp only [calcular_acessorios, List.foldl_nil, custo_itens_vazio, h0]
  have hmao : (calcular_mao_obra [] cfg.complexidade).custo_total = 0 := by
    simp only [calcular_mao_obra, area_total_componentes, List.map_nil,
      List.sum_nil, zero_mul, h0]
  have hcorte : (calcular_corte []).custo_total = 0 := by
    simp only [calcular_corte, calcular_custo_corte_estimado, List.map_nil,
      List.sum_nil, h0]
  have hsub : (gerar_orcamento_completo [] (some cfg)).resumo.subtotal_antes_margem = 0 := by
    show round_dec ((calcular_materiais [] cfg.tipo_material).custo_total
      + (calcular_acessorios [] cfg.qualidade_acessorios).custo_total
      + (calcular_mao_obra [] cfg.complexidade).custo_total
      + (calcular_corte []).custo_total) 2 = 0
    rw [hmat, hace, hmao, hcorte]
    simpa using h0
  refine ⟨hsub, ?_, ?_, ?_, rfl⟩
  · show round_dec (((calcular_materiais [] cfg.tipo_material).custo_total
      + (calcular_acessorios [] cfg.qualidade_acessorios).custo_total
      + (calcular_mao_obra [] cfg.complexidade).custo_total
      + (calcular_corte []).custo_total) * cfg.margem_lucro) 2 = 0
    rw [hmat, hace, hmao, hcorte]
    rw [show ((0 : ℚ) + 0 + 0 + 0) * cfg.margem_lucro = 0 by ring]
    exact h0
  · show round_dec (((calcular_materiais [] cfg.tipo_material).custo_total
      + (calcular_acessorios [] cfg.qualidade_acessorios).custo_total
      + (calcular_mao_obra [] cfg.complexidade).custo_total
      + (calcular_corte []).custo_total)
      + ((calcular_materiais [] cfg.tipo_material).custo_total
      + (calcular_acessorios [] cfg.qualidade_acessorios).custo_total
      + (calcular_mao_obra [] cfg.complexidade).custo_total
      + (calcular_corte []).custo_total) * cfg.margem_lucro) 2 = 0
    rw [hmat, hace, hmao, hcorte]
    rw [show ((0 : ℚ) + 0 + 0 + 0) + ((0 : ℚ) + 0 + 0 + 0) * cfg.margem_lucro = 0 by ring]
    exact h0
  · show round_dec (if area_total_componentes [] > 0 then _ else 0) 2 = 0
    rw [if_neg (by simp [area_total_componentes])]
    exact h0


/-! ## C5 — end-to-end Door example -/

/-- C5: one Door 0.45 × 1.8 × 0.02 m (area 0.81 m²) under mdf_15mm,
common accessories, medium labor and margin 0.30 yields exactly the
summary material 64.41, accessories 40.80, labor 126.36, cutting
21.00, pre-margin subtotal 252.57, margin 75.77 and final 328.34. -/
theorem c5_orcamento_porta_exemplo :
    (gerar_orcamento_completo
      [{ tipo := "Porta", largura_m := 0.45, altura_m := 1.8,
         profundidade_m := 0.02, area_m2 := 0.81 }]
      (some { tipo_material := "mdf_15mm", qualidade_acessorios := "comum",
              complexidade := "media", margem_lucro := 0.30 })).resumo
      = { subtotal_materiais := 64.41, subtotal_acessorios := 40.80,
          subtotal_mao_obra := 126.36, subtotal_corte := 21,
          subtotal_antes_margem := 252.57, valor_margem := 75.77,
          valor_final := 328.34, area_total_m2 := 0.81,
          valor_por_m2 := 405.36 } := by
  have hmat : (calcular_materiais
      [{ tipo := "Porta", largura_m := 0.45, altura_m := 1.8,
         profundidade_m := 0.02, area_m2 := 0.81 }] "mdf_15mm").custo_total
      = 64.41 := by
    simp only [calcular_materiais, area_total_componentes, List.map_cons,
      List.map_nil, List.sum_cons, List.sum_nil,
      show obter_preco_material "mdf_15mm" = mdf_15mm from rfl, mdf_15mm]
    norm_num [round_dec, round_eq]
  have hace : (calcular_acessorios
      [{ tipo := "Porta", largura_m := 0.45, altura_m := 1.8,
         profundidade_m := 0.02, area_m2 := 0.81 }] "comum").custo_total
      = 40.80 := by
    simp only [calcular_acessorios, List.foldl_cons, List.foldl_nil,
      show obter_precos_acessorios "comum" = acessorios_comum from rfl]
    rw [show conta_acessorios_comp {}
        { tipo := "Porta", largura_m := 0.45, altura_m := 1.8,
          profundidade_m := 0.02, area_m2 := 0.81 }
      = { dobradica_qtd := 2, puxador_qtd := 1, corredicica_qtd := 0,
          suporte_prateleira_qtd := 0 } from by
        simp only [conta_acessorios_comp]
        rw [if_neg (by decide), if_neg (by decide), if_pos (by decide)]]
    simp only [custo_itens, acessorios_comum]
    norm_num [round_dec, round_eq]
  have hmao : (calcular_mao_obra
      [{ tipo := "Porta", largura_m := 0.45, altura_m := 1.8,
         profundidade_m := 0.02, area_m2 := 0.81 }] "media").custo_total
      = 126.36 := by
    simp only [calcular_mao_obra, area_total_componentes, List.map_cons,
      List.map_nil, List.sum_cons, List.sum_nil]
    rw [show obter_custo_mao_obra "media" = 156 from by
      rw [obter_custo_mao_obra,
        show multiplicadores_complexidade.lookup "media" = some 1.3 from rfl]
      norm_num [CUSTOS_MAO_OBRA_base_m2]]
    norm_num [round_dec, round_eq]
  have hcorte : (calcular_corte
      [{ tipo := "Porta", largura_m := 0.45, altura_m := 1.8,
         profundidade_m := 0.02, area_m2 := 0.81 }]).custo_total = 21 := by
    simp only [calcular_corte, calcular_custo_corte_estimado, List.map_cons,
      List.map_nil, List.sum_cons, List.sum_nil]
    rw [show custo_corte_componente
        { tipo := "Porta", largura_m := 0.45, altura_m := 1.8,
          profundidade_m := 0.02, area_m2 := 0.81 } = 21 from by
      simp only [custo_corte_componente, CUSTOS_CORTE_corte_reto_metro,
        CUSTOS_CORTE_taxa_minima, CUSTOS_CORTE_furo_dobradica,
        CUSTOS_CORTE_rebaixo_metro]
      rw [if_neg (by decide), if_pos (by decide)]
      norm_num [max_def]]
    norm_num [round_dec, round_eq]
  have hsub : (gerar_orcamento_completo
      [{ tipo := "Porta", largura_m := 0.45, altura_m := 1.8,
         profundidade_m := 0.02, area_m2 := 0.81 }]
      (some { tipo_material := "mdf_15mm", qualidade_acessorios := "comum",
              complexidade := "media", margem_lucro := 0.30 })).resumo.subtotal_antes_margem
      = 252.57 := by
    show round_dec ((calcular_materiais
      [{ tipo := "Porta", largura_m := 0.45, altura_m := 1.8,
         profundidade_m := 0.02, area_m2 := 0.81 }] "mdf_15mm").custo_total
      + (calcular_acessorios
      [{ tipo := "Porta", largura_m := 0.45, altura_m := 1.8,
         profundidade_m := 0.02, area_m2 := 0.81 }] "comum").custo_total
      + (calcular_mao_obra
      [{ tipo := "Porta", largura_m := 0.45, altura_m := 1.8,
         profundidade_m := 0.02, area_m2 := 0.81 }] "media").custo_total
      + (calcular_corte
      [{ tipo := "Porta", largura_m := 0.45, altura_m := 1.8,
         profundidade_m := 0.02, area_m2 := 0.81 }]).custo_total) 2 = 252.57
    rw [hmat, hace, hmao, hcorte]
    norm_num [round_dec, round_eq]
  refine Resumo.ext ?_ ?_ ?_ ?_ ?_ ?_ ?_ ?_ ?_
  · show round_dec ((calcular_materiais
      [{ tipo := "Porta", largura_m := 0.45, altura_m := 1.8,
         profundidade_m := 0.02, area_m2 := 0.81 }] "mdf_15mm").custo_total) 2 = 64.41
    rw [hmat]
    norm_num [round_dec, round_eq]
  · show round_dec ((calcular_acessorios
      [{ tipo := "Porta", largura_m := 0.45, altura_m := 1.8,
         profundidade_m := 0.02, area_m2 := 0.81 }] "comum").custo_total) 2 = 40.80
    rw [hace]
    norm_num [round_dec, round_eq]
  · show round_dec ((calcular_mao_obra
      [{ tipo := "Porta", largura_m := 0.45, altura_m := 1.8,
         profundidade_m := 0.02, area_m2 := 0.81 }] "media").custo_total) 2 = 126.36
    rw [hmao]
    norm_num [round_dec, round_eq]
  · show round_dec ((calcular_corte
      [{ tipo := "Porta", largura_m := 0.45, altura_m := 1.8,
         profundidade_m := 0.02, area_m2 := 0.81 }]).custo_total) 2 = 21
    rw [hcorte]
    norm_num [round_dec, round_eq]
  · exact hsub
  · show round_dec (((calcular_materiais
      [{ tipo := "Porta", largura_m := 0.45, altura_m := 1.8,
         profundidade_m := 0.02, area_m2 := 0.81 }] "mdf_15mm").custo_total
      + (calcular_acessorios
      [{ tipo := "Porta", largura_m := 0.45, altura_m := 1.8,
         profundidade_m := 0.02, area_m2 := 0.81 }] "comum").custo_total
      + (calcular_mao_obra
      [{ tipo := "Porta", largura_m := 0.45, altura_m := 1.8,
         profundidade_m := 0.02, area_m2 := 0.81 }] "media").custo_total
      + (calcular_corte
      [{ tipo := "Porta", largura_m := 0.45, altura_m := 1.8,
         profundidade_m := 0.02, area_m2 := 0.81 }]).custo_total) * 0.30) 2 = 75.77
    rw [hmat, hace, hmao, hcorte]
    norm_num [round_dec, round_eq]
  · show round_dec (((calcular_materiais
      [{ tipo := "Porta", largura_m := 0.45, altura_m := 1.8,
         profundidade_m := 0.02, area_m2 := 0.81 }] "mdf_15mm").custo_total
      + (calcular_acessorios
      [{ tipo := "Porta", largura_m := 0.45, altura_m := 1.8,
         profundidade_m := 0.02, area_m2 := 0.81 }] "comum").custo_total
      + (calcular_mao_obra
      [{ tipo := "Porta", largura_m := 0.45, altura_m := 1.8,
         profundidade_m := 0.02, area_m2 := 0.81 }] "media").custo_total
      + (calcular_corte
      [{ tipo := "Porta", largura_m := 0.45, altura_m := 1.8,
         profundidade_m := 0.02, area_m2 := 0.81 }]).custo_total)
      + ((calcular_materiais
      [{ tipo := "Porta", largura_m := 0.45, altura_m := 1.8,
         profundidade_m := 0.02, area_m2 := 0.81 }] "mdf_15mm").custo_total
      + (calcular_acessorios
      [{ tipo := "Porta", largura_m := 0.45, altura_m := 1.8,
         profundidade_m := 0.02, area_m2 := 0.81 }] "comum").custo_total
      + (calcular_mao_obra
      [{ tipo := "Porta", largura_m := 0.45, altura_m := 1.8,
         profundidade_m := 0.02, area_m2 := 0.81 }] "media").custo_total
      + (calcular_corte
      [{ tipo := "Porta", largura_m := 0.45, altura_m := 1.8,
         profundidade_m := 0.02, area_m2 := 0.81 }]).custo_total) * 0.30) 2 = 328.34
    rw [hmat, hace, hmao, hcorte]
    norm_num [round_dec, round_eq]
  · show round_dec ((0.81 : ℚ) + 0) 2 = 0.81
    norm_num [round_dec, round_eq]
  · show round_dec (if area_total_componentes
      [{ tipo := "Porta", largura_m := 0.45, altura_m := 1.8,
         profundidade_m := 0.02, area_m2 := 0.81 }] > 0 then _ else 0) 2 = 405.36
    rw [if_pos (by norm_num [area_total_componentes])]
    show round_dec ((((calcular_materiais
      [{ tipo := "Porta", largura_m := 0.45, altura_m := 1.8,
         profundidade_m := 0.02, area_m2 := 0.81 }] "mdf_15mm").custo_total
      + (calcular_acessorios
      [{ tipo := "Porta", largura_m := 0.45, altura_m := 1.8,
         profundidade_m := 0.02, area_m2 := 0.81 }] "comum").custo_total
      + (calcular_mao_obra
      [{ tipo := "Porta", largura_m := 0.45, altura_m := 1.8,
         profundidade_m := 0.02, area_m2 := 0.81 }] "media").custo_total
      + (calcular_corte
      [{ tipo := "Porta", largura_m := 0.45, altura_m := 1.8,
         profundidade_m := 0.02, area_m2 := 0.81 }]).custo_total)
      + ((calcular_materiais
      [{ tipo := "Porta", largura_m := 0.45, altura_m := 1.8,
         profundidade_m := 0.02, area_m2 := 0.81 }] "mdf_15mm").custo_total
      + (calcular_acessorios
      [{ tipo := "Porta", largura_m := 0.45, altura_m := 1.8,
         profundidade_m := 0.02, area_m2 := 0.81 }] "comum").custo_total
      + (calcular_mao_obra
      [{ tipo := "Porta", largura_m := 0.45, altura_m := 1.8,
         profundidade_m := 0.02, area_m2 := 0.81 }] "media").custo_total
      + (calcular_corte
      [{ tipo := "Porta", largura_m := 0.45, altura_m := 1.8,
         profundidade_m := 0.02, area_m2 := 0.81 }]).custo_total) * 0.30)
      / area_total_componentes
      [{ tipo := "Porta", largura_m := 0.45, altura_m := 1.8,
         profundidade_m := 0.02, area_m2 := 0.81 }]) 2 = 405.36
    rw [hmat, hace, hmao, hcorte]
    norm_num [area_total_componentes, round_dec, round_eq]

/-! ## C3 — area and volume derivation -/

theorem round_dec_zero (n : ℕ) : round_dec 0 n = 0 := by
  simp [round_dec]

theorem round_dec_nonneg {q : ℚ} (n : ℕ) (h : 0 ≤ q) : 0 ≤ round_dec q n := by
  have := round_dec_mono n h
  rwa [round_dec_zero] at this

theorem normalizar_brutas_nonneg (b : Bounds) :
    0 ≤ (normalizar_dimensoes (dimensoes_brutas b)).1
    ∧ 0 ≤ (normalizar_dimensoes (dimensoes_brutas b)).2.1
    ∧ 0 ≤ (normalizar_dimensoes (dimensoes_brutas b)).2.2 := by
  simp only [normalizar_dimensoes, dimensoes_brutas]
  split_ifs <;>
    refine ⟨?_, ?_, ?_⟩ <;> positivity


/-- Counterexample to C3 as stated: (a) the simulated countertop for a
1 × 0.2 × 0.5 m box stores area 0.5 = width × depth, not
round(width × height) = 0.2; (b) a 0.05 m wide tall box yields a door
with negative area −0.045; (c) `analisar_geometria` computes
area 1.001 from the pre-rounding extents 1.0004 × 1.0004 while the
stored extents are 1.000 × 1.000, whose rounded product is 1. -/
theorem c3_areas_contraexemplo :
    ((simular_componentes ((0, 0, 0), (1, 0.2, 0.5))).map
        (fun c => (c.area_m2, c.largura_m, c.altura_m)) = [(0.5, 1, 0.2)]
      ∧ round_dec ((1 : ℚ) * 0.2) 3 = 0.2
      ∧ (0.5 : ℚ) ≠ 0.2)
    ∧ (((simular_componentes ((0, 0, 0), (0.05, 2, 0.5))).map
        Componente.area_m2).head? = some (-0.045)
      ∧ ¬ (0 : ℚ) ≤ -0.045)
    ∧ ((analisar_geometria ((0, 0, 0), (1.0004, 1.0004, 0.5)) "obj1").map
        (fun c => (c.area_m2, round_dec (c.largura_m * c.altura_m) 3))
      = some (1.001, 1)
      ∧ (1.001 : ℚ) ≠ 1) := by
  refine ⟨⟨?_, ?_, by norm_num⟩, ⟨?_, by norm_num⟩, ?_, by norm_num⟩
  · have hdims : dimensoes_brutas ((0, 0, 0), (1, 0.2, 0.5)) = (1, 0.2, 0.5) := by
      norm_num [dimensoes_brutas]
    simp only [simular_componentes, hdims]
    rw [if_neg (by norm_num), if_pos (by norm_num)]
    simp only [List.map_cons, List.map_nil, bancada_simulada]
    norm_num [round_dec, round_eq]
  · norm_num [round_dec, round_eq]
  · have hdims : dimensoes_brutas ((0, 0, 0), (0.05, 2, 0.5)) = (0.05, 2, 0.5) := by
      norm_num [dimensoes_brutas]
    simp only [simular_componentes, hdims]
    rw [if_pos (by norm_num)]
    simp only [List.map_cons, List.head?_cons, porta_simulada]
    norm_num [round_dec, round_eq]
  · have hdims : normalizar_dimensoes
        (dimensoes_brutas ((0, 0, 0), (1.0004, 1.0004, 0.5)))
        = (1.0004, 1.0004, 0.5) := by
      have hb : dimensoes_brutas ((0, 0, 0), (1.0004, 1.0004, 0.5))
          = (1.0004, 1.0004, 0.5) := by
        norm_num [dimensoes_brutas]
      rw [hb]
      simp only [normalizar_dimensoes]
      rw [if_neg (by norm_num [max_def])]
    have hcl : classificar_componente 1.0004 1.0004 0.5 "obj1"
        = ("Armário Baixo", 0.7) := by
      simp only [classificar_componente]
      rw [show tipos_componentes.find?
          (fun p => p.2.any (fun palavra => contem palavra (minusculas "obj1")))
          = none from by decide]
      rw [if_neg (by norm_num), if_neg (by norm_num), if_neg (by norm_num),
        if_neg (by norm_num), if_pos (by norm_num), if_neg (by norm_num)]
    simp only [analisar_geometria, hdims]
    rw [if_neg (by norm_num), if_neg (by norm_num [min_def])]
    simp only [hcl, Option.map_some]
    norm_num [round_dec, round_eq]


/-- C3 amended: components from `analisar_geometria` have
area = round₃(width·height) and volume = round₄(width·height·depth)
computed from the pre-rounding normalized extents, and these are
non-negative; the Simulator likewise derives door and shelf areas and
volumes from its synthesized pre-rounding extents, but the countertop
area is round₃(width × depth), and simulated areas can be negative for
boxes narrower than 0.1 m. -/
theorem c3_areas_volumes (b : Bounds) (nome : String) (w h d : ℚ)
    (hdims : normalizar_dimensoes (dimensoes_brutas b) = (w, h, d)) :
    (∀ c, analisar_geometria b nome = some c →
        c.area_m2 = round_dec (w * h) 3
        ∧ c.volume_m3 = round_dec (w * h * d) 4
        ∧ 0 ≤ c.area_m2 ∧ 0 ≤ c.volume_m3)
    ∧ (∀ w2 h2 d2 : ℚ, dimensoes_brutas b = (w2, h2, d2) →
        (h2 > 1.5 →
          (∀ pc ∈ (simular_componentes b).head?,
            pc.area_m2 = round_dec ((w2 / 2 - 0.05) * (h2 * 0.9)) 3
            ∧ pc.volume_m3 = round_dec ((w2 / 2 - 0.05) * (h2 * 0.9) * 0.02) 4)
          ∧ ∀ c ∈ (simular_componentes b).tail,
              c.area_m2 = round_dec ((w2 - 0.1) * 0.02) 3
              ∧ c.volume_m3 = round_dec ((w2 - 0.1) * 0.02 * (d2 - 0.1)) 4)
        ∧ (h2 < 0.3 → ∀ c ∈ simular_componentes b,
            c.area_m2 = round_dec (w2 * d2) 3
            ∧ c.volume_m3 = round_dec (w2 * h2 * d2) 4)) := by
  constructor
  · intro c hc
    have hnn := normalizar_brutas_nonneg b
    rw [hdims] at hnn
    obtain ⟨hw0, hh0, hd0⟩ := hnn
    simp only [analisar_geometria, hdims] at hc
    split_ifs at hc with h1 h2
    rw [Option.some_inj] at hc
    subst hc
    refine ⟨rfl, rfl, ?_, ?_⟩ <;> simp only []
    · exact round_dec_nonneg 3 (by positivity)
    · exact round_dec_nonneg 4 (by positivity)
  · intro w2 h2 d2 hdims2
    constructor
    · intro hh
      simp only [simular_componentes, hdims2]
      rw [if_pos hh]
      constructor
      · intro pc hpc
        simp only [List.head?_cons, Option.mem_def, Option.some_inj] at hpc
        subst hpc
        exact ⟨rfl, rfl⟩
      · intro c hcmem
        simp only [List.tail_cons, List.mem_map, List.mem_range] at hcmem
        obtain ⟨i, _, rfl⟩ := hcmem
        exact ⟨rfl, rfl⟩
    · intro hh
      simp only [simular_componentes, hdims2]
      rw [if_neg (by linarith), if_pos hh]
      intro c hcmem
      simp only [List.mem_singleton] at hcmem
      subst hcmem
      exact ⟨rfl, rfl⟩


/-- Witness for the amended C3: the countertop of a 1 × 0.2 × 0.5 m
box has area round₃(1 × 0.5). -/
theorem c3_areas_volumes_witness :
    (bancada_simulada ((0, 0, 0), (1, 0.2, 0.5)) 1 0.2 0.5).area_m2
      = round_dec ((1 : ℚ) * 0.5) 3 := by
  have hb : dimensoes_brutas ((0, 0, 0), (1, 0.2, 0.5)) = (1, 0.2, 0.5) := by
    norm_num [dimensoes_brutas]
  have hdimsN : normalizar_dimensoes
      (dimensoes_brutas ((0, 0, 0), (1, 0.2, 0.5))) = (1, 0.2, 0.5) := by
    rw [hb]
    simp only [normalizar_dimensoes]
    rw [if_neg (by norm_num [max_def])]
  have h := ((c3_areas_volumes ((0, 0, 0), (1, 0.2, 0.5)) "x" 1 0.2 0.5
    hdimsN).2 1 0.2 0.5 hb).2 (by norm_num)
  have hsim : simular_componentes ((0, 0, 0), (1, 0.2, 0.5))
      = [bancada_simulada ((0, 0, 0), (1, 0.2, 0.5)) 1 0.2 0.5] := by
    simp only [simular_componentes, hb]
    rw [if_neg (by norm_num), if_pos (by norm_num)]
  exact (h _ (by rw [hsim]; exact List.mem_singleton_self _)).1

/-! ## C10 — the reported processing time is an RNG sample -/

/-- C10: the external call `np.random.uniform(1.5, 4.2)` is modelled by
the parameter `rand_uniforme`.  On every successful run the reported
`tempo_processamento` is exactly that sample (hence lies in [1.5, 4.2)
when the sample does) and does not depend on the inputs; the component
list does not depend on the sample; and two runs on identical input
with different samples return different results — the analyzer is not
deterministic. -/
theorem c10_tempo_aleatorio (ext : String) (file_size : ℕ)
    (mesh? : Option MeshData) (r1 r2 : ℚ)
    (hr1 : 1.5 ≤ r1 ∧ r1 < 4.2) :
    ((analisar_arquivo ext file_size mesh? r1).sucesso = true →
      (analisar_arquivo ext file_size mesh? r1).tempo_processamento = r1
      ∧ 1.5 ≤ (analisar_arquivo ext file_size mesh? r1).tempo_processamento
      ∧ (analisar_arquivo ext file_size mesh? r1).tempo_processamento < 4.2)
    ∧ (analisar_arquivo ext file_size mesh? r1).componentes
        = (analisar_arquivo ext file_size mesh? r2).componentes
    ∧ (r1 ≠ r2 → (analisar_arquivo ext file_size mesh? r1).sucesso = true →
        analisar_arquivo ext file_size mesh? r1
          ≠ analisar_arquivo ext file_size mesh? r2) := by
  cases mesh? with
  | none =>
    simp only [analisar_arquivo]
    split_ifs <;>
      exact ⟨fun hs => by simp at hs, by trivial, fun hne hs => by simp at hs⟩
  | some mesh =>
    simp only [analisar_arquivo]
    split_ifs with hv he
    · exact ⟨fun hs => by simp at hs, by trivial, fun hne hs => by simp at hs⟩
    · exact ⟨fun hs => by simp at hs, by trivial, fun hne hs => by simp at hs⟩
    · refine ⟨fun _ => ⟨rfl, hr1.1, hr1.2⟩, rfl, fun hne _ heq =>
        hne (congrArg ResultadoAnalise.tempo_processamento heq)⟩


set_option maxHeartbeats 1600000 in
/-- Witness for C10: a valid .obj upload whose scene holds one door
geometry succeeds; with sample 2 the reported time is 2, and the run
with sample 3 yields a different result. -/
theorem c10_tempo_aleatorio_witness :
    (analisar_arquivo ".obj" 10
      (some (MeshData.scene [("porta_x", some ((0, 0, 0), (1, 2, 0.02)))]))
      2).tempo_processamento = 2
    ∧ analisar_arquivo ".obj" 10
        (some (MeshData.scene [("porta_x", some ((0, 0, 0), (1, 2, 0.02)))])) 2
      ≠ analisar_arquivo ".obj" 10
        (some (MeshData.scene [("porta_x", some ((0, 0, 0), (1, 2, 0.02)))])) 3 := by
  have hdims : normalizar_dimensoes
      (dimensoes_brutas ((0, 0, 0), (1, 2, 0.02))) = (1, 2, 0.02) := by
    have hb : dimensoes_brutas ((0, 0, 0), (1, 2, 0.02)) = (1, 2, 0.02) := by
      norm_num [dimensoes_brutas]
    rw [hb]
    simp only [normalizar_dimensoes]
    rw [if_neg (by norm_num [max_def])]
  have hcl : classificar_componente 1 2 0.02 "porta_x" = ("Porta", 0.9) := by
    simp only [classificar_componente]
    rw [show tipos_componentes.find?
        (fun p => p.2.any (fun palavra => contem palavra (minusculas "porta_x")))
        = some ("porta", ["porta", "door", "puerta"]) from by decide]
    rfl
  have hc0 : analisar_geometria ((0, 0, 0), (1, 2, 0.02)) "porta_x"
      = some { nome := "porta_x", tipo := "Porta", largura_m := 1,
               altura_m := 2, profundidade_m := 0.02, area_m2 := 2,
               volume_m3 := 0.04, confianca := 0.9,
               bounds := ((0, 0, 0), (1, 2, 0.02)) } := by
    simp only [analisar_geometria, hdims]
    rw [if_neg (by norm_num), if_neg (by norm_num [min_def])]
    rw [Option.some_inj]
    apply Componente.ext <;> simp only [hcl] <;> norm_num [round_dec, round_eq]
  have hextval : extrair_geometrias (MeshData.scene
      [("porta_x", some ((0, 0, 0), (1, 2, 0.02)))])
      = [{ nome := "porta_x", tipo := "Porta", largura_m := 1,
           altura_m := 2, profundidade_m := 0.02, area_m2 := 2,
           volume_m3 := 0.04, confianca := 0.9,
           bounds := ((0, 0, 0), (1, 2, 0.02)) }] := by
    show List.filterMap
        (fun p => p.2.bind (fun b => analisar_geometria b p.1))
        [("porta_x", some ((0, 0, 0), (1, 2, 0.02)))] = _
    rw [List.filterMap_cons]
    rw [show (("porta_x", some ((0, 0, 0), (1, 2, 0.02)))
          : String × Option Bounds).2.bind
          (fun b => analisar_geometria b ("porta_x",
            some ((0, 0, 0), (1, 2, 0.02))).1)
        = some { nome := "porta_x", tipo := "Porta", largura_m := 1,
                 altura_m := 2, profundidade_m := 0.02, area_m2 := 2,
                 volume_m3 := 0.04, confianca := 0.9,
                 bounds := ((0, 0, 0), (1, 2, 0.02)) } from by
      rw [show (("porta_x", some ((0, 0, 0), (1, 2, 0.02)))
          : String × Option Bounds).2 = some ((0, 0, 0), (1, 2, 0.02)) from rfl,
        Option.some_bind]
      exact hc0]
    rfl
  have hval : validar_arquivo ".obj" 10 = (true, "Arquivo valido") := by decide
  have hsuc : (analisar_arquivo ".obj" 10
      (some (MeshData.scene [("porta_x", some ((0, 0, 0), (1, 2, 0.02)))]))
      2).sucesso = true := by
    simp only [analisar_arquivo, hval, hextval]
    rfl
  have h := c10_tempo_aleatorio ".obj" 10
    (some (MeshData.scene [("porta_x", some ((0, 0, 0), (1, 2, 0.02)))])) 2 3
    ⟨by norm_num, by norm_num⟩
  exact ⟨(h.1 hsuc).1, h.2.2 (by norm_num) hsuc⟩
